import Mathlib

/-
Shallow embedding of the GlassBox resumable agent execution engine
(src/apps/workers/agent/executor.py) together with the checkpoint and
trace persistence contracts it consumes (src/apps/workers/shared/s3.py,
shared/config.py).

Modelling conventions:
- Python dict/JSON values are modelled by the inductive `Json` below
  (numbers as Int; the modelled payloads carry no floats).
- The database row of table agent_executions for this execution is the
  record `DbRow`; SQL UPDATE statements become functional updates of it.
- Every externally visible action (SQL update, S3 upload, trace-event
  insert, gateway call) is recorded in an ordered `List Effect`.
- The LLM gateway, external status flips, the node/input rows and the
  Python json.loads library function are inputs of the model (`Env`).
- uuid.uuid4 and the timestamp inside generate_output_key are modelled
  by a fresh-name counter threaded through the computation.
- Wall-clock timestamps (started_at, completed_at, duration_ms) and the
  provider wire format of the tool schema are elided: no claim observes
  them.
-/

namespace Glassbox

/-- JSON values, as produced by Python json.loads / consumed by json.dumps. -/
inductive Json where
  | null
  | bool (b : Bool)
  | num (n : Int)
  | str (s : String)
  | arr (items : List Json)
  | obj (fields : List (String × Json))

/-- Python truthiness of a JSON value (None, False, 0, "", [] and
empty dict are falsy). -/
def Json.truthy : Json → Bool
  | .null => false
  | .bool b => b
  | .num n => n != 0
  | .str s => !(s = "")
  | .arr items => !items.isEmpty
  | .obj fields => !fields.isEmpty

/-- Escape of one character inside a JSON string literal (only quote and
backslash are modelled; control-character escapes do not occur in the
payloads the claims inspect). -/
def jsonEscapeChar (c : Char) : String :=
  if c = '\\' then "\\\\" else if c = '"' then "\\\"" else String.singleton c

/-- Escape of a whole string for json.dumps. -/
def jsonEscape (s : String) : String :=
  String.join (s.toList.map jsonEscapeChar)

mutual

/-- Model of Python json.dumps with its default separators. -/
def Json.dumps : Json → String
  | .null => "null"
  | .bool true => "true"
  | .bool false => "false"
  | .num n => toString n
  | .str s => "\"" ++ jsonEscape s ++ "\""
  | .arr items => "[" ++ String.intercalate ", " (Json.dumpsList items) ++ "]"
  | .obj fields => "\x7b" ++ String.intercalate ", " (Json.dumpsFields fields) ++ "\x7d"

/-- Serialization of the members of a JSON array. -/
def Json.dumpsList : List Json → List String
  | [] => []
  | j :: rest => Json.dumps j :: Json.dumpsList rest

/-- Serialization of the fields of a JSON object. -/
def Json.dumpsFields : List (String × Json) → List String
  | [] => []
  | (k, v) :: rest => ("\"" ++ jsonEscape k ++ "\": " ++ Json.dumps v) :: Json.dumpsFields rest

end

/-- View of an Option as json: Python None becomes JSON null. -/
def optJson : Option Json → Json
  | some j => j
  | none => .null

/-- Decision of whether an optional JSON value is present and truthy
(Python: `if state.human_input_response:`). -/
def optTruthy : Option Json → Bool
  | some j => j.truthy
  | none => false

/-- Check that the character list n occurs at the head of the second list. -/
def subEq : List Char → List Char → Bool
  | [], _ => true
  | _ :: _, [] => false
  | a :: as, b :: bs => a == b && subEq as bs

/-- Lowercasing of one character (ASCII range; the engine only compares
against the ASCII literal "complete", so the non-ASCII cases of Python
str.lower are immaterial). -/
def charLower (c : Char) : Char :=
  if 'A' ≤ c ∧ c ≤ 'Z' then Char.ofNat (c.toNat + 32) else c

/-- Lowercasing of a string, modelling Python str.lower. -/
def strLower (s : String) : String :=
  String.mk (s.toList.map charLower)

/-- Substring test, modelling the Python `in` operator on strings. -/
def strContains (hay needle : String) : Bool :=
  let h := hay.toList
  let n := needle.toList
  (List.range (h.length + 1)).any fun i => subEq n (List.drop i h)

/-- Parsed argument dictionary of one tool call: the union of the keys the
four tools of executor.py read, each optional exactly as dict.get is. -/
structure ArgsDict where
  title : Option String := none
  description : Option String := none
  author_type : Option String := none
  ty : Option String := none
  content : Option String := none
  label : Option String := none
  question : Option String := none
  options : Option (List String) := none
  summary : Option String := none


/-- Function part of a model-emitted tool call. The raw argument string of
the source is modelled by the outcome of json.loads on it: `.error`
stands for a malformed payload (json.loads raises). -/
structure ToolFunction where
  name : String
  arguments : Except String ArgsDict


/-- One tool call emitted by the model (tool_call.id, tool_call.function). -/
structure ToolCall where
  id : String
  function : ToolFunction


/-- One transcript turn, as the dicts appended to state.messages. -/
structure Msg where
  role : String
  content : Option String := none
  tool_calls : List ToolCall := []
  tool_call_id : Option String := none


/-- Record appended to state.outputs by _add_output
(the dict per source line 590). -/
structure OutputRec where
  id : String
  file_id : String
  s3_key : String
  args : ArgsDict


/-- Serialized checkpoint payload (_save_checkpoint, source lines 229-237). -/
structure Checkpoint where
  messages : List Msg
  iteration : Nat
  outputs : List OutputRec
  subNodesCreated : List String
  currentStep : String
  humanInputRequest : Option Json
  humanInputResponse : Option Json

/-- Row of node_inputs joined with files, as read by _load_inputs. -/
structure InputRow where
  label : Option String := none
  input_type : Option String := none
  text_content : Option String := none
  extracted_text : Option String := none
  external_url : Option String := none

/-- Row of the nodes table as read by _load_node (all none models the
empty dict returned for a missing row). -/
structure NodeRow where
  title : Option String := none
  description : Option String := none
  org_id : Option String := none

/-- Row of agent_executions for this execution id; present = false models
a deleted row (fetchrow returns None). -/
structure DbRow where
  present : Bool := true
  status : String := "pending"
  checkpoint : Option Checkpoint := none
  total_tokens_in : Nat := 0
  total_tokens_out : Nat := 0
  error_message : Option String := none

/-- The AgentState class of executor.py, field for field. -/
structure AgentState where
  node_id : String
  execution_id : String
  inputs : List InputRow
  messages : List Msg := []
  outputs : List OutputRec := []
  sub_nodes_created : List String := []
  current_step : String := "start"
  iteration : Nat := 0
  human_input_needed : Bool := false
  human_input_request : Option Json := none
  human_input_response : Option Json := none
  error : Option String := none

/-- Token usage of one gateway response. -/
structure Usage where
  prompt_tokens : Nat
  completion_tokens : Nat

/-- One assistant turn returned by the LLM gateway. -/
structure LLMResponse where
  content : Option String := none
  tool_calls : List ToolCall := []
  usage : Usage

/-- Externally visible actions of the engine, in program order. -/
inductive Effect where
  | statusUpdate (status : String) (error : Option String) (tokens_in tokens_out : Nat)
  | checkpointSave (cp : Checkpoint) (tokens_in tokens_out : Nat)
  | traceEvent (kind : String) (payload : Json)
  | llmCall (transcript : List Msg)
  | subnodeInsert (node_id parent_id title : String) (description : Option String) (author_type : String)
  | s3Upload (key : String) (content_type : String) (body : String)
  | fileInsert (file_id storage_key filename content_type : String) (size_bytes : Nat)
  | nodeOutputInsert (output_id node_id output_type fid label : String)

/-- The environment of one run: the LLM gateway (indexed by the iteration
number of the call), external mutation of the execution row applied at
the top of each iteration, the json.loads library function for output
content, and the node and input rows of the database. -/
structure Env where
  llm : Nat → LLMResponse
  interfere : Nat → DbRow → DbRow
  parseJson : String → Except String Json
  node : NodeRow
  inputs : List InputRow

/-- Constructor parameters of AgentExecutor that the claims observe. -/
structure ExecCfg where
  node_id : String
  execution_id : String
  model : String
  org_id : Option String := none

/-- Mutable context of one running engine instance: the AgentState, the
execution row, the token counters of the executor object and the
fresh-name counter standing in for uuid4. -/
structure Ctx where
  state : AgentState
  row : DbRow
  total_tokens_in : Nat
  total_tokens_out : Nat
  gensym : Nat

end Glassbox

namespace Glassbox

/-- Fresh identifier produced by the n-th uuid.uuid4 call of the run. -/
def freshId (n : Nat) : String := "uuid-" ++ toString n

/-- Model of _check_execution_status (executor.py lines 201-225): a missing
row reads as cancelled; the pending human response is read out of the
stored checkpoint blob. -/
def checkExecutionStatus (row : DbRow) : String × Option Json :=
  if row.present then
    (row.status,
      match row.checkpoint with
      | some cp => cp.humanInputResponse
      | none => none)
  else ("cancelled", none)

/-- Checkpoint payload built by _save_checkpoint (lines 229-237). -/
def checkpointOf (st : AgentState) : Checkpoint :=
  { messages := st.messages
    iteration := st.iteration
    outputs := st.outputs
    subNodesCreated := st.sub_nodes_created
    currentStep := st.current_step
    humanInputRequest := st.human_input_request
    humanInputResponse := st.human_input_response }

/-- Model of _save_checkpoint (lines 227-252): one UPDATE writing the
checkpoint blob and both token totals; status untouched. -/
def saveCheckpoint (ctx : Ctx) : Ctx × List Effect :=
  let cp := checkpointOf ctx.state
  let row := if ctx.row.present then
      { ctx.row with checkpoint := some cp,
                     total_tokens_in := ctx.total_tokens_in,
                     total_tokens_out := ctx.total_tokens_out }
    else ctx.row
  ({ ctx with row := row }, [.checkpointSave cp ctx.total_tokens_in ctx.total_tokens_out])

/-- Model of _load_checkpoint (lines 254-270): token totals are restored
from the row only when a checkpoint blob is present. -/
def loadCheckpoint (row : DbRow) : Option Checkpoint × Nat × Nat :=
  if row.present then
    match row.checkpoint with
    | some cp => (some cp, row.total_tokens_in, row.total_tokens_out)
    | none => (none, 0, 0)
  else (none, 0, 0)

/-- UPDATE of agent_executions issued by _update_status (lines 667-721);
the three SQL variants differ only in timestamp columns, which are
elided here. -/
def updateStatusRow (row : DbRow) (status : String) (err : Option String)
    (tin tout : Nat) : DbRow × List Effect :=
  (if row.present then
     { row with status := status, error_message := err,
                total_tokens_in := tin, total_tokens_out := tout }
   else row,
   [.statusUpdate status err tin tout])

/-- Status update lifted to a running context. -/
def updateStatusC (ctx : Ctx) (status : String) (err : Option String) :
    Ctx × List Effect :=
  let (row, evs) := updateStatusRow ctx.row status err ctx.total_tokens_in ctx.total_tokens_out
  ({ ctx with row := row }, evs)

/-- Append of one turn to state.messages. -/
def appendMsg (ctx : Ctx) (m : Msg) : Ctx :=
  { ctx with state := { ctx.state with messages := ctx.state.messages ++ [m] } }

/-- JSON rendering of the present keys of a parsed argument dict, used
where the source spreads **args into an event payload. -/
def argsFields (a : ArgsDict) : List (String × Json) :=
  (match a.title with | some s => [("title", Json.str s)] | none => []) ++
  (match a.description with | some s => [("description", Json.str s)] | none => []) ++
  (match a.author_type with | some s => [("author_type", Json.str s)] | none => []) ++
  (match a.ty with | some s => [("type", Json.str s)] | none => []) ++
  (match a.content with | some s => [("content", Json.str s)] | none => []) ++
  (match a.label with | some s => [("label", Json.str s)] | none => []) ++
  (match a.question with | some s => [("question", Json.str s)] | none => []) ++
  (match a.options with
   | some l => [("options", Json.arr (l.map Json.str))] | none => []) ++
  (match a.summary with | some s => [("summary", Json.str s)] | none => [])

/-- Model of _create_subnode (lines 473-493): INSERT of the child row,
append to state.sub_nodes_created, subnode_created trace event. -/
def createSubnode (cfg : ExecCfg) (args : ArgsDict) (ctx : Ctx) :
    Ctx × List Effect × Except String String :=
  match args.title, args.author_type with
  | some title, some authorType =>
    let nodeId := freshId ctx.gensym
    let ctx := { ctx with gensym := ctx.gensym + 1 }
    let ins := Effect.subnodeInsert nodeId cfg.node_id title args.description authorType
    let ctx := { ctx with state :=
      { ctx.state with sub_nodes_created := ctx.state.sub_nodes_created ++ [nodeId] } }
    let ev := Effect.traceEvent "subnode_created"
      (Json.obj (("subnode_id", Json.str nodeId) :: argsFields args))
    (ctx, [ins, ev], .ok ("Created sub-node: " ++ title ++ " (id: " ++ nodeId ++ ")"))
  | _, _ => (ctx, [], .error "KeyError")

/-- S3 key built by generate_output_key (s3.py lines 159-180); the
timestamp and the uuid fragment are modelled by fresh tokens. -/
def generateOutputKey (orgId executionId outputType extension ts uid : String) : String :=
  "outputs/" ++ orgId ++ "/" ++ executionId ++ "/" ++ ts ++ "_" ++ outputType ++ "_" ++ uid ++ "." ++ extension

/-- Model of _add_output (lines 495-607). The content of a structured_data
output is parsed by json.loads before any storage step; the parse
failure propagates as an exception with no effect performed. After the
parse the content is a JSON value: S3Client.upload serializes a dict
body and rejects other non-string bodies (s3.py lines 52-59). -/
def addOutput (cfg : ExecCfg) (env : Env) (args : ArgsDict) (ctx : Ctx) :
    Ctx × List Effect × Except String String :=
  let outputId := freshId ctx.gensym
  let fileId := freshId (ctx.gensym + 1)
  let ctx := { ctx with gensym := ctx.gensym + 2 }
  match args.ty, args.content with
  | some outputType, some content0 =>
    let label := args.label.getD outputType
    let meta :=
      if outputType = "structured_data" then
        (env.parseJson content0).map fun j => (Sum.inr j, "application/json", "json")
      else if outputType = "text" then
        .ok (Sum.inl content0, "text/plain", "txt")
      else
        .ok (Sum.inl content0, "application/octet-stream", "bin")
    match meta with
    | .error e => (ctx, [], .error e)
    | .ok (contentVal, contentType, extension) =>
      match cfg.org_id with
      | none => (ctx, [], .error "TypeError: org_id is not a UUID")
      | some orgId =>
        let ts := freshId ctx.gensym
        let uid := freshId (ctx.gensym + 1)
        let ctx := { ctx with gensym := ctx.gensym + 2 }
        let key := generateOutputKey orgId cfg.execution_id outputType extension ts uid
        let body : Except String (String × String) :=
          match contentVal with
          | Sum.inl s => .ok (s, contentType)
          | Sum.inr (Json.obj fields) => .ok ((Json.obj fields).dumps, "application/json")
          | Sum.inr _ => .error "TypeError: unsupported S3 body"
        match body with
        | .error e => (ctx, [], .error e)
        | .ok (bodyStr, uploadType) =>
          let up := Effect.s3Upload key uploadType bodyStr
          let sizeBytes := bodyStr.utf8ByteSize
          let fi := Effect.fileInsert fileId key (label ++ "." ++ extension) contentType sizeBytes
          let noi := Effect.nodeOutputInsert outputId cfg.node_id outputType fileId label
          let ctx := { ctx with state := { ctx.state with
            outputs := ctx.state.outputs ++
              [{ id := outputId, file_id := fileId, s3_key := key, args := args }] } }
          let ev := Effect.traceEvent "output_added"
            (Json.obj (("output_id", Json.str outputId) :: ("file_id", Json.str fileId) ::
              ("s3_key", Json.str key) :: ("size_bytes", Json.num sizeBytes) :: argsFields args))
          (ctx, [up, fi, noi, ev], .ok ("Added output: " ++ label ++ " (stored in S3)"))
  | _, _ => (ctx, [], .error "KeyError")

/-- Model of _request_human_input (lines 609-619). -/
def requestHumanInput (args : ArgsDict) (ctx : Ctx) :
    Ctx × List Effect × Except String String :=
  match args.question with
  | some question =>
    let req := Json.obj
      [("requestType", Json.str "question"),
       ("prompt", Json.str question),
       ("options", Json.arr ((args.options.getD []).map Json.str))]
    let ctx := { ctx with state := { ctx.state with
      human_input_needed := true, human_input_request := some req } }
    (ctx, [.traceEvent "human_input_requested" (Json.obj (argsFields args))],
     .ok "Human input requested. Execution will pause until input is provided.")
  | none => (ctx, [], .error "KeyError")

/-- Model of _execute_tool (lines 453-471): json.loads of the argument
string happens before the tool_call trace event; dispatch is by name
with an explicit unknown-tool result string. -/
def executeTool (cfg : ExecCfg) (env : Env) (tc : ToolCall) (ctx : Ctx) :
    Ctx × List Effect × Except String String :=
  match tc.function.arguments with
  | .error e => (ctx, [], .error e)
  | .ok args =>
    let ev := Effect.traceEvent "tool_call"
      (Json.obj [("tool", Json.str tc.function.name), ("arguments", Json.obj (argsFields args))])
    if tc.function.name = "create_subnode" then
      let (ctx, evs, res) := createSubnode cfg args ctx
      (ctx, ev :: evs, res)
    else if tc.function.name = "add_output" then
      let (ctx, evs, res) := addOutput cfg env args ctx
      (ctx, ev :: evs, res)
    else if tc.function.name = "request_human_input" then
      let (ctx, evs, res) := requestHumanInput args ctx
      (ctx, ev :: evs, res)
    else if tc.function.name = "mark_complete" then
      let ctx := { ctx with state := { ctx.state with current_step := "complete" } }
      (ctx, [ev], .ok ("Node marked as complete: " ++ args.summary.getD ""))
    else
      (ctx, [ev], .ok ("Unknown tool: " ++ tc.function.name))

end Glassbox

namespace Glassbox

/-- Model of _call_llm (lines 419-451): one gateway call with the current
transcript, accumulation of the usage into the running totals, and the
llm_call trace event. -/
def callLLM (cfg : ExecCfg) (env : Env) (ctx : Ctx) : Ctx × List Effect × LLMResponse :=
  let resp := env.llm ctx.state.iteration
  let ctx1 := { ctx with
    total_tokens_in := ctx.total_tokens_in + resp.usage.prompt_tokens,
    total_tokens_out := ctx.total_tokens_out + resp.usage.completion_tokens }
  (ctx1,
   [.llmCall ctx.state.messages,
    .traceEvent "llm_call" (Json.obj
      [("model", Json.str cfg.model),
       ("tokens_in", Json.num resp.usage.prompt_tokens),
       ("tokens_out", Json.num resp.usage.completion_tokens)])],
   resp)

/-- Outcome of the tool-call for-loop of run (lines 377-398). -/
inductive BatchOut where
  | next
  | returned
  | raised (msg : String)

/-- The for-loop over the tool calls of one assistant turn (lines 377-398):
dispatch in order, append the tool-result turn, then test the
awaiting-input and the completion conditions after each dispatch. -/
def processToolCalls (cfg : ExecCfg) (env : Env) :
    List ToolCall → Ctx → Ctx × List Effect × BatchOut
  | [], ctx => (ctx, [], .next)
  | tc :: rest, ctx =>
    let (ctx1, evs1, res) := executeTool cfg env tc ctx
    match res with
    | .error e => (ctx1, evs1, .raised e)
    | .ok result =>
      let ctx2 := appendMsg ctx1
        { role := "tool", tool_call_id := some tc.id, content := some result }
      if ctx2.state.human_input_needed then
        let (ctx3, evs2) := saveCheckpoint ctx2
        let (ctx4, evs3) := updateStatusC ctx3 "awaiting_input" none
        let evs4 := [Effect.traceEvent "awaiting_human_input"
          (optJson ctx4.state.human_input_request)]
        (ctx4, evs1 ++ evs2 ++ evs3 ++ evs4, .returned)
      else if ctx2.state.current_step = "complete" then
        let (ctx3, evs2) := updateStatusC ctx2 "complete" none
        let evs3 := [Effect.traceEvent "execution_complete"
          (Json.obj [("summary", Json.str "Task completed")])]
        (ctx3, evs1 ++ evs2 ++ evs3, .returned)
      else
        let (ctx3, evs2, out) := processToolCalls cfg env rest ctx2
        (ctx3, evs1 ++ evs2, out)

/-- Truthiness-guarded completion test of an assistant turn without tool
calls (line 401: content truthy and "complete" in content.lower()). -/
def contentComplete (c : Option String) : Bool :=
  match c with
  | none => false
  | some s => if s = "" then false else strContains (strLower s) "complete"

/-- Outcome of the while-loop of run. -/
inductive LoopOut where
  | returned
  | fellThrough
  | raised (msg : String)

/-- Merge of a human response observed by the status poll into the
transcript (lines 352-360): one appended user turn, the
human_input_received trace event, and an immediate checkpoint save
(which also clears the stored response, because the in-memory
state.human_input_response is what gets persisted). -/
def mergeHumanResponse (status : String) (humanResp : Option Json) (ctx : Ctx) :
    Ctx × List Effect :=
  if optTruthy humanResp && status = "running" then
    let r := optJson humanResp
    let ctx1 := appendMsg ctx
      { role := "user", content := some ("Human response: " ++ r.dumps) }
    let evH := Effect.traceEvent "human_input_received" (Json.obj [("response", r)])
    let (ctx2, evsS) := saveCheckpoint ctx1
    (ctx2, evH :: evsS)
  else (ctx, [])

/-- Body of one iteration after the status poll admitted continuation
(lines 352-407): merge a pending human response, call the gateway,
append the assistant turn, dispatch its tool calls or test its text for
completion, save the end-of-iteration checkpoint, and continue through
`rec` (the rest of the while-loop). -/
def iterBody (cfg : ExecCfg) (env : Env) (rec : Ctx → Ctx × List Effect × LoopOut)
    (status : String) (humanResp : Option Json) (ctx : Ctx) :
    Ctx × List Effect × LoopOut :=
  let (ctx, evsH) := mergeHumanResponse status humanResp ctx
  let (ctx, evsL, resp) := callLLM cfg env ctx
  let ctx := appendMsg ctx
    { role := "assistant", content := resp.content, tool_calls := resp.tool_calls }
  if resp.tool_calls.isEmpty then
    if contentComplete resp.content then
      let (ctx1, evs1) := updateStatusC ctx "complete" none
      (ctx1, evsH ++ evsL ++ evs1 ++
        [.traceEvent "execution_complete"
          (Json.obj [("summary", Json.str ((resp.content.getD "").take 200))])], .returned)
    else
      let (ctx1, evsC) := saveCheckpoint ctx
      let (ctx2, evsR, out) := rec ctx1
      (ctx2, evsH ++ evsL ++ evsC ++ evsR, out)
  else
    match processToolCalls cfg env resp.tool_calls ctx with
    | (ctx1, evsT, .returned) => (ctx1, evsH ++ evsL ++ evsT, .returned)
    | (ctx1, evsT, .raised e) => (ctx1, evsH ++ evsL ++ evsT, .raised e)
    | (ctx1, evsT, .next) =>
      let (ctx2, evsC) := saveCheckpoint ctx1
      let (ctx3, evsR, out) := rec ctx2
      (ctx3, evsH ++ evsL ++ evsT ++ evsC ++ evsR, out)

/-- The while-loop of run (lines 335-407). One pass: increment the
iteration counter, suffer external interference on the execution row,
poll status (cancel, pause), then the iteration body. The fuel argument
equals max_iterations minus the iteration counter, so fuel zero is
exactly the exit of the while condition. -/
def loop (cfg : ExecCfg) (env : Env) : Nat → Ctx → Ctx × List Effect × LoopOut
  | 0, ctx => (ctx, [], .fellThrough)
  | fuel + 1, ctx =>
    let ctx := { ctx with state := { ctx.state with iteration := ctx.state.iteration + 1 } }
    let ctx := { ctx with row := env.interfere ctx.state.iteration ctx.row }
    let (status, humanResp) := checkExecutionStatus ctx.row
    if status = "cancelled" then
      (ctx, [.traceEvent "execution_cancelled" (Json.obj [])], .returned)
    else if status = "paused" then
      let (ctx1, evs) := saveCheckpoint ctx
      (ctx1, evs ++ [.traceEvent "execution_paused"
        (Json.obj [("iteration", Json.num ctx1.state.iteration)])], .returned)
    else
      iterBody cfg env (loop cfg env fuel) status humanResp ctx

/-- Truthiness of an optional string (Python: a missing or empty string
is falsy). -/
def pyStrFalsy : Option String → Bool
  | none => true
  | some s => s = ""

/-- The org_id fallback of run (lines 292-293): the node row supplies the
org when the constructor received none. -/
def resolveOrgId (c n : Option String) : Option String :=
  if pyStrFalsy c && !pyStrFalsy n then n else c

/-- Rendering of one input line of the system message (line 646). -/
def inputLine (inp : InputRow) : String :=
  let label := match inp.label with
    | some s => if s = "" then (inp.input_type.getD "None") else s
    | none => inp.input_type.getD "None"
  let body :=
    if !pyStrFalsy inp.text_content then inp.text_content.getD ""
    else if !pyStrFalsy inp.extracted_text then inp.extracted_text.getD ""
    else inp.external_url.getD "N/A"
  "- " ++ label ++ ": " ++ body

/-- Model of _build_system_message (lines 643-665). -/
def buildSystemMessage (node : NodeRow) (inputs : List InputRow) : String :=
  let inputsText := String.intercalate "\n" (inputs.map inputLine)
  "You are an AI agent working on a task in GlassBox, a collaborative workspace.\n\n" ++
  "Task: " ++ node.title.getD "Untitled" ++ "\n" ++
  "Description: " ++ node.description.getD "No description provided" ++ "\n\n" ++
  "Available inputs:\n" ++
  (if inputsText = "" then "No inputs provided" else inputsText) ++ "\n\n" ++
  "You have access to the following tools:\n" ++
  "1. create_subnode - Break down this task into smaller sub-tasks\n" ++
  "2. add_output - Add outputs (text, structured data, or files)\n" ++
  "3. request_human_input - Ask the human supervisor for clarification\n" ++
  "4. mark_complete - Mark this task as complete\n\n" ++
  "Work through the task step by step. If the task is complex, break it into sub-nodes.\n" ++
  "When you have completed the task, use mark_complete with a summary."

/-- The iteration cap of run (line 333). -/
def maxIterations : Nat := 20

/-- Result of one invocation of AgentExecutor.run: the final context, the
ordered effect trace, and the exception re-raised by the handler of
lines 413-417 when one occurred. -/
structure RunResult where
  ctx : Ctx
  effects : List Effect
  raised : Option String

/-- The execution_resume or execution_start trace event of run
(lines 281-284). -/
def resumeEvent (model : String) : Option Checkpoint → Effect
  | some cp => .traceEvent "execution_resume"
      (Json.obj [("model", Json.str model), ("iteration", Json.num cp.iteration)])
  | none => .traceEvent "execution_start" (Json.obj [("model", Json.str model)])

/-- State construction of run (lines 296-330): restored from the
checkpoint on resume, built from the node and inputs on a fresh start. -/
def initState (cfg : ExecCfg) (node : NodeRow) (inputs : List InputRow) :
    Option Checkpoint → AgentState
  | some cp =>
    { node_id := cfg.node_id, execution_id := cfg.execution_id, inputs := inputs,
      messages := cp.messages, outputs := cp.outputs,
      sub_nodes_created := cp.subNodesCreated, current_step := cp.currentStep,
      iteration := cp.iteration, human_input_response := cp.humanInputResponse }
  | none =>
    { node_id := cfg.node_id, execution_id := cfg.execution_id, inputs := inputs,
      messages :=
        [{ role := "system", content := some (buildSystemMessage node inputs) },
         { role := "user", content := some ("Please begin working on this task: " ++
            node.title.getD "Untitled" ++
            ". Analyze the inputs provided and use your tools to complete the work.") }] }

/-- Merge of a restored pending human response into the transcript at
resume time (lines 309-316): one appended user turn, the in-memory field
cleared, and the human_input_received event logged afterwards with the
already-cleared field as its payload. -/
def restoreHuman (cpOpt : Option Checkpoint) (st0 : AgentState) :
    AgentState × List Effect :=
  match cpOpt with
  | some _ =>
    if optTruthy st0.human_input_response then
      let r := optJson st0.human_input_response
      let st' := { st0 with
        messages := st0.messages ++
          [{ role := "user", content := some ("Human response: " ++ r.dumps) }],
        human_input_response := none }
      (st', [Effect.traceEvent "human_input_received"
        (Json.obj [("response", optJson st'.human_input_response)])])
    else (st0, [])
  | none => (st0, [])

/-- Epilogue of run after the loop: the plain return (line 344 and
kindred), the max-iterations failure (lines 409-411), or the exception
handler (lines 413-417); yields the extra effects and the re-raised
exception. -/
def epilogue (ctx1 : Ctx) : LoopOut → Ctx × List Effect × Option String
  | .returned => (ctx1, [], none)
  | .fellThrough =>
    let evErr := [Effect.traceEvent "error"
      (Json.obj [("message", Json.str "Max iterations reached")])]
    let (ctx2, evsS) := updateStatusC ctx1 "failed" (some "Max iterations reached")
    (ctx2, evErr ++ evsS, none)
  | .raised e =>
    let evErr := [Effect.traceEvent "error" (Json.obj [("message", Json.str e)])]
    let (ctx2, evsS) := updateStatusC ctx1 "failed" (some e)
    (ctx2, evErr ++ evsS, some e)

/-- Model of AgentExecutor.run (lines 272-417). Checkpoint load, status
write to running, start or resume trace event, state construction,
merge of a restored pending human response, the iteration loop, and the
max-iterations and exception epilogues. -/
def run (cfg : ExecCfg) (env : Env) (row0 : DbRow) : RunResult :=
  let lc := loadCheckpoint row0
  let cpOpt := lc.1
  let tin := lc.2.1
  let tout := lc.2.2
  let (row1, evs1) := updateStatusRow row0 "running" none tin tout
  let evs2 := [resumeEvent cfg.model cpOpt]
  let node := env.node
  let inputs := env.inputs
  let cfg := { cfg with org_id := resolveOrgId cfg.org_id node.org_id }
  let (st1, evsR) := restoreHuman cpOpt (initState cfg node inputs cpOpt)
  let ctx0 : Ctx :=
    { state := st1, row := row1,
      total_tokens_in := tin, total_tokens_out := tout, gensym := 0 }
  let (ctx1, evsL, out) := loop cfg env (maxIterations - st1.iteration) ctx0
  let (ctx2, evsE, raised) := epilogue ctx1 out
  { ctx := ctx2, effects := evs1 ++ evs2 ++ evsR ++ evsL ++ evsE, raised := raised }

end Glassbox

namespace Glassbox

/-- Trace kind of an effect, when it is a trace event. -/
def kindOf : Effect → Option String
  | .traceEvent k _ => some k
  | _ => none

/-- Kinds of the trace events of an effect list, in order. -/
def traceKinds (l : List Effect) : List String := l.filterMap kindOf

/-- Number of trace events of one kind in an effect list. -/
def countKind (k : String) (l : List Effect) : Nat := (traceKinds l).count k

/-- Token totals of an effect, when it is a checkpoint save. -/
def saveOf : Effect → Option (Nat × Nat)
  | .checkpointSave _ a b => some (a, b)
  | _ => none

/-- Token-total pairs written by the checkpoint saves of an effect list,
in order. -/
def cpSaves (l : List Effect) : List (Nat × Nat) := l.filterMap saveOf

/-- Transcript of an effect, when it is a gateway call. -/
def transcriptOf : Effect → Option (List Msg)
  | .llmCall t => some t
  | _ => none

/-- Transcripts of the gateway calls of an effect list, in order. -/
def llmTranscripts (l : List Effect) : List (List Msg) := l.filterMap transcriptOf

/-- Transcript of the first gateway call of a run, when one happened. -/
def firstLLM (l : List Effect) : Option (List Msg) := (llmTranscripts l).head?

/-- Number of gateway calls in an effect list. -/
def llmCount (l : List Effect) : Nat := (llmTranscripts l).length

/-- Decision of whether an effect touches storage (S3 upload, file row,
node_output row). -/
def isStorage : Effect → Bool
  | .s3Upload _ _ _ => true
  | .fileInsert _ _ _ _ _ => true
  | .nodeOutputInsert _ _ _ _ _ => true
  | _ => false

/-- Number of storage effects in an effect list. -/
def storageCount (l : List Effect) : Nat := (l.filter isStorage).length

/-- Status and error written by an effect, when it is a status update. -/
def statusOf : Effect → Option (String × Option String)
  | .statusUpdate s e _ _ => some (s, e)
  | _ => none

/-- Status values written by the status-update effects of an effect list,
in order. -/
def statusWrites (l : List Effect) : List (String × Option String) := l.filterMap statusOf

/-- Number of checkpoint-save effects in an effect list. -/
def saveCount (l : List Effect) : Nat := (cpSaves l).length

/-- The twelve trace event kinds the spec enumerates. -/
def specTraceKinds : List String :=
  ["execution_start", "execution_resume", "llm_call", "tool_call",
   "subnode_created", "output_added", "human_input_requested",
   "human_input_received", "execution_paused", "execution_cancelled",
   "execution_complete", "error"]

/-- The trace event kinds the modelled engine can emit: the twelve of the
spec plus awaiting_human_input (executor.py line 391). -/
def emittedTraceKinds : List String :=
  specTraceKinds ++ ["awaiting_human_input"]

/-- Componentwise order on the token-total pairs of checkpoint saves. -/
def tokLE (p q : Nat × Nat) : Prop := p.1 ≤ q.1 ∧ p.2 ≤ q.2

end Glassbox

namespace Glassbox

/-- Admissibility of one effect for the trace-kind catalogue. -/
def kindOK : Effect → Prop
  | .traceEvent k _ => k ∈ emittedTraceKinds
  | _ => True

/-- Admissibility of a whole effect list for the trace-kind catalogue. -/
def KindsOK (l : List Effect) : Prop := ∀ e ∈ l, kindOK e

/-- Bracketing of the checkpoint saves of an effect list between a
starting and a final token total, monotone throughout. -/
def SavesOK (t : Nat × Nat) (l : List Effect) (t' : Nat × Nat) : Prop :=
  List.Chain' tokLE (t :: (cpSaves l ++ [t']))

theorem tokLE_refl (t : Nat × Nat) : tokLE t t := ⟨le_refl _, le_refl _⟩

theorem tokLE_trans {a b c : Nat × Nat} (h1 : tokLE a b) (h2 : tokLE b c) : tokLE a c :=
  ⟨h1.1.trans h2.1, h1.2.trans h2.2⟩

theorem cpSaves_append (l₁ l₂ : List Effect) :
    cpSaves (l₁ ++ l₂) = cpSaves l₁ ++ cpSaves l₂ :=
  List.filterMap_append l₁ l₂ saveOf

theorem chain_glue {a b c : Nat × Nat} : ∀ (l m : List (Nat × Nat)),
    List.Chain' tokLE (a :: (l ++ [b])) → List.Chain' tokLE (b :: (m ++ [c])) →
    List.Chain' tokLE (a :: ((l ++ m) ++ [c]))
  | [], m, h1, h2 => by
    have hab : tokLE a b := by simpa using h1
    rcases List.chain'_cons'.mp h2 with ⟨hb, hm⟩
    exact List.chain'_cons'.mpr ⟨fun y hy => tokLE_trans hab (hb y hy), hm⟩
  | x :: l, m, h1, h2 => by
    rcases List.chain'_cons.mp h1 with ⟨hax, h1'⟩
    exact List.chain'_cons.mpr ⟨hax, chain_glue l m h1' h2⟩

theorem savesOK_nil {t t' : Nat × Nat} (h : tokLE t t') : SavesOK t [] t' :=
  List.chain'_cons.mpr ⟨h, List.chain'_singleton t'⟩

theorem savesOK_append {t t' t'' : Nat × Nat} {l₁ l₂ : List Effect}
    (h1 : SavesOK t l₁ t') (h2 : SavesOK t' l₂ t'') : SavesOK t (l₁ ++ l₂) t'' := by
  unfold SavesOK
  rw [cpSaves_append]
  exact chain_glue _ _ h1 h2

theorem savesOK_no_save {t t' : Nat × Nat} {l : List Effect}
    (h0 : cpSaves l = []) (h : tokLE t t') : SavesOK t l t' := by
  unfold SavesOK
  rw [h0]
  exact savesOK_nil h

theorem savesOK_single_save {a b : Nat} {l : List Effect} (cp : Checkpoint)
    (h0 : l = [Effect.checkpointSave cp a b]) : SavesOK (a, b) l (a, b) := by
  subst h0
  exact List.chain'_cons.mpr ⟨tokLE_refl _,
    List.chain'_cons.mpr ⟨tokLE_refl _, List.chain'_singleton _⟩⟩

theorem savesOK_bounds {t t' : Nat × Nat} {l : List Effect} (h : SavesOK t l t') :
    List.Chain' tokLE (cpSaves l) := by
  have h1 : List.Chain' tokLE (cpSaves l ++ [t']) := (List.chain'_cons'.mp h).2
  exact h1.left_of_append

theorem kindsOK_append {l₁ l₂ : List Effect} (h1 : KindsOK l₁) (h2 : KindsOK l₂) :
    KindsOK (l₁ ++ l₂) := by
  intro e he
  rcases List.mem_append.mp he with h | h
  · exact h1 e h
  · exact h2 e h

theorem kindsOK_traceKinds {l : List Effect} (h : KindsOK l) :
    ∀ k ∈ traceKinds l, k ∈ emittedTraceKinds := by
  intro k hk
  rcases List.mem_filterMap.mp hk with ⟨e, he, hke⟩
  have hOK : kindOK e := h e he
  cases e <;> simp [kindOf] at hke
  subst hke
  exact hOK

end Glassbox

namespace Glassbox

theorem kindsOK_nil : KindsOK [] := by
  intro e he
  simp at he

theorem kindsOK_cons {e : Effect} {l : List Effect} (h1 : kindOK e) (h2 : KindsOK l) :
    KindsOK (e :: l) := by
  intro x hx
  rcases List.mem_cons.mp hx with rfl | hx
  · exact h1
  · exact h2 x hx

theorem createSubnode_fx (cfg : ExecCfg) (args : ArgsDict) (ctx : Ctx) :
    (createSubnode cfg args ctx).1.total_tokens_in = ctx.total_tokens_in ∧
    (createSubnode cfg args ctx).1.total_tokens_out = ctx.total_tokens_out ∧
    cpSaves (createSubnode cfg args ctx).2.1 = [] ∧
    KindsOK (createSubnode cfg args ctx).2.1 := by
  unfold createSubnode
  rcases ht : args.title with _ | t <;> rcases ha : args.author_type with _ | a <;>
    simp [cpSaves, saveOf, KindsOK, kindOK] <;> decide

theorem addOutput_fx (cfg : ExecCfg) (env : Env) (args : ArgsDict) (ctx : Ctx) :
    (addOutput cfg env args ctx).1.total_tokens_in = ctx.total_tokens_in ∧
    (addOutput cfg env args ctx).1.total_tokens_out = ctx.total_tokens_out ∧
    cpSaves (addOutput cfg env args ctx).2.1 = [] ∧
    KindsOK (addOutput cfg env args ctx).2.1 := by
  unfold addOutput
  rcases ht : args.ty with _ | oty <;> rcases hc : args.content with _ | ct <;>
    simp only [ht, hc] <;>
    (repeat' split) <;>
    simp [cpSaves, saveOf, KindsOK, kindOK] <;>
    decide

theorem requestHumanInput_fx (args : ArgsDict) (ctx : Ctx) :
    (requestHumanInput args ctx).1.total_tokens_in = ctx.total_tokens_in ∧
    (requestHumanInput args ctx).1.total_tokens_out = ctx.total_tokens_out ∧
    cpSaves (requestHumanInput args ctx).2.1 = [] ∧
    KindsOK (requestHumanInput args ctx).2.1 := by
  unfold requestHumanInput
  rcases hq : args.question with _ | q <;>
    simp [cpSaves, saveOf, KindsOK, kindOK] <;> decide

end Glassbox

namespace Glassbox

theorem executeTool_fx (cfg : ExecCfg) (env : Env) (tc : ToolCall) (ctx : Ctx) :
    (executeTool cfg env tc ctx).1.total_tokens_in = ctx.total_tokens_in ∧
    (executeTool cfg env tc ctx).1.total_tokens_out = ctx.total_tokens_out ∧
    cpSaves (executeTool cfg env tc ctx).2.1 = [] ∧
    KindsOK (executeTool cfg env tc ctx).2.1 := by
  unfold executeTool
  rcases ha : tc.function.arguments with e | args
  · exact ⟨rfl, rfl, rfl, kindsOK_nil⟩
  · simp only
    split
    · have h := createSubnode_fx cfg args ctx
      rcases hcs : createSubnode cfg args ctx with ⟨ctx1, evs1, res1⟩
      rw [hcs] at h
      refine ⟨h.1, h.2.1, ?_, ?_⟩
      · have h3 := h.2.2.1
        simp only [cpSaves, List.filterMap] at h3 ⊢
        simp [saveOf, h3]
      · exact kindsOK_cons (by simp [kindOK]; decide) h.2.2.2
    · split
      · have h := addOutput_fx cfg env args ctx
        rcases hao : addOutput cfg env args ctx with ⟨ctx1, evs1, res1⟩
        rw [hao] at h
        refine ⟨h.1, h.2.1, ?_, ?_⟩
        · have h3 := h.2.2.1
          simp only [cpSaves, List.filterMap] at h3 ⊢
          simp [saveOf, h3]
        · exact kindsOK_cons (by simp [kindOK]; decide) h.2.2.2
      · split
        · have h := requestHumanInput_fx args ctx
          rcases hrh : requestHumanInput args ctx with ⟨ctx1, evs1, res1⟩
          rw [hrh] at h
          refine ⟨h.1, h.2.1, ?_, ?_⟩
          · have h3 := h.2.2.1
            simp only [cpSaves, List.filterMap] at h3 ⊢
            simp [saveOf, h3]
          · exact kindsOK_cons (by simp [kindOK]; decide) h.2.2.2
        · split
          · exact ⟨rfl, rfl, rfl, kindsOK_cons (by simp [kindOK]; decide) kindsOK_nil⟩
          · exact ⟨rfl, rfl, rfl, kindsOK_cons (by simp [kindOK]; decide) kindsOK_nil⟩

end Glassbox

namespace Glassbox
theorem savesOK_of_cases {a b : Nat} {l : List Effect}
    (h : cpSaves l = [] ∨ cpSaves l = [(a, b)]) : SavesOK (a, b) l (a, b) := by
  rcases h with h | h <;> unfold SavesOK <;> rw [h]
  · exact List.chain'_cons.mpr ⟨tokLE_refl _, List.chain'_singleton _⟩
  · exact List.chain'_cons.mpr ⟨tokLE_refl _,
      List.chain'_cons.mpr ⟨tokLE_refl _, List.chain'_singleton _⟩⟩

theorem processToolCalls_fx (cfg : ExecCfg) (env : Env) :
    ∀ (l : List ToolCall) (ctx : Ctx),
    (processToolCalls cfg env l ctx).1.total_tokens_in = ctx.total_tokens_in ∧
    (processToolCalls cfg env l ctx).1.total_tokens_out = ctx.total_tokens_out ∧
    (cpSaves (processToolCalls cfg env l ctx).2.1 = [] ∨
     cpSaves (processToolCalls cfg env l ctx).2.1 =
       [(ctx.total_tokens_in, ctx.total_tokens_out)]) ∧
    KindsOK (processToolCalls cfg env l ctx).2.1
  | [], ctx => ⟨rfl, rfl, Or.inl rfl, kindsOK_nil⟩
  | tc :: rest, ctx => by
    have hx := executeTool_fx cfg env tc ctx
    rcases he : executeTool cfg env tc ctx with ⟨ctx1, evs1, res⟩
    rw [he] at hx
    simp only at hx
    simp only [processToolCalls, he]
    cases res with
    | error e =>
      exact ⟨hx.1, hx.2.1, Or.inl hx.2.2.1, hx.2.2.2⟩
    | ok result =>
      simp only [saveCheckpoint, updateStatusC, updateStatusRow]
      split
      · refine ⟨by simp [appendMsg, hx.1], by simp [appendMsg, hx.2.1], Or.inr ?_, ?_⟩
        · rw [cpSaves_append, cpSaves_append, cpSaves_append, hx.2.2.1]
          simp [cpSaves, saveOf, appendMsg, hx.1, hx.2.1]
        · refine kindsOK_append (kindsOK_append (kindsOK_append hx.2.2.2 ?_) ?_) ?_
          · exact kindsOK_cons (by simp [kindOK]) kindsOK_nil
          · exact kindsOK_cons (by simp [kindOK]) kindsOK_nil
          · exact kindsOK_cons (by simp [kindOK]; decide) kindsOK_nil
      · split
        · refine ⟨by simp [appendMsg, hx.1], by simp [appendMsg, hx.2.1], Or.inl ?_, ?_⟩
          · rw [cpSaves_append, cpSaves_append, hx.2.2.1]
            simp [cpSaves, saveOf]
          · refine kindsOK_append (kindsOK_append hx.2.2.2 ?_) ?_
            · exact kindsOK_cons (by simp [kindOK]) kindsOK_nil
            · exact kindsOK_cons (by simp [kindOK]; decide) kindsOK_nil
        · have ih := processToolCalls_fx cfg env rest
            (appendMsg ctx1 ⟨"tool", some result, [], some tc.id⟩)
          refine ⟨ih.1.trans hx.1, ih.2.1.trans hx.2.1, ?_,
            kindsOK_append hx.2.2.2 ih.2.2.2⟩
          rcases ih.2.2.1 with h2 | h2
          · exact Or.inl (by rw [cpSaves_append, hx.2.2.1, List.nil_append, h2])
          · refine Or.inr ?_
            rw [cpSaves_append, hx.2.2.1, List.nil_append, h2]
            simp [appendMsg, hx.1, hx.2.1]

end Glassbox

namespace Glassbox

theorem mergeHumanResponse_fx (status : String) (hr : Option Json) (ctx : Ctx) :
    (mergeHumanResponse status hr ctx).1.total_tokens_in = ctx.total_tokens_in ∧
    (mergeHumanResponse status hr ctx).1.total_tokens_out = ctx.total_tokens_out ∧
    (cpSaves (mergeHumanResponse status hr ctx).2 = [] ∨
     cpSaves (mergeHumanResponse status hr ctx).2 =
       [(ctx.total_tokens_in, ctx.total_tokens_out)]) ∧
    KindsOK (mergeHumanResponse status hr ctx).2 := by
  unfold mergeHumanResponse
  split
  · refine ⟨rfl, rfl, Or.inr ?_, ?_⟩
    · simp [saveCheckpoint, appendMsg, cpSaves, saveOf]
    · simp only [saveCheckpoint, appendMsg]
      exact kindsOK_cons (by simp [kindOK]; decide)
        (kindsOK_cons (by simp [kindOK]) kindsOK_nil)
  · exact ⟨rfl, rfl, Or.inl rfl, kindsOK_nil⟩

theorem callLLM_fx (cfg : ExecCfg) (env : Env) (ctx : Ctx) :
    tokLE (ctx.total_tokens_in, ctx.total_tokens_out)
      ((callLLM cfg env ctx).1.total_tokens_in, (callLLM cfg env ctx).1.total_tokens_out) ∧
    cpSaves (callLLM cfg env ctx).2.1 = [] ∧
    KindsOK (callLLM cfg env ctx).2.1 := by
  unfold callLLM
  refine ⟨⟨Nat.le_add_right _ _, Nat.le_add_right _ _⟩, rfl, ?_⟩
  exact kindsOK_cons (by simp [kindOK])
    (kindsOK_cons (by simp [kindOK]; decide) kindsOK_nil)

end Glassbox

namespace Glassbox

theorem tokLE_add {a b p q : Nat} : tokLE (a, b) (a + p, b + q) :=
  ⟨Nat.le_add_right a p, Nat.le_add_right b q⟩

theorem saveCheckpoint_tin (ctx : Ctx) :
    (saveCheckpoint ctx).1.total_tokens_in = ctx.total_tokens_in := rfl

theorem saveCheckpoint_tout (ctx : Ctx) :
    (saveCheckpoint ctx).1.total_tokens_out = ctx.total_tokens_out := rfl

theorem saveCheckpoint_effs (ctx : Ctx) :
    (saveCheckpoint ctx).2 =
      [Effect.checkpointSave (checkpointOf ctx.state)
        ctx.total_tokens_in ctx.total_tokens_out] := rfl

theorem appendMsg_tin (ctx : Ctx) (m : Msg) :
    (appendMsg ctx m).total_tokens_in = ctx.total_tokens_in := rfl

theorem appendMsg_tout (ctx : Ctx) (m : Msg) :
    (appendMsg ctx m).total_tokens_out = ctx.total_tokens_out := rfl

theorem updateStatusC_tin (ctx : Ctx) (s : String) (e : Option String) :
    (updateStatusC ctx s e).1.total_tokens_in = ctx.total_tokens_in := rfl

theorem updateStatusC_tout (ctx : Ctx) (s : String) (e : Option String) :
    (updateStatusC ctx s e).1.total_tokens_out = ctx.total_tokens_out := rfl

theorem updateStatusC_effs (ctx : Ctx) (s : String) (e : Option String) :
    (updateStatusC ctx s e).2 =
      [Effect.statusUpdate s e ctx.total_tokens_in ctx.total_tokens_out] := rfl

theorem processToolCalls_tin (cfg : ExecCfg) (env : Env) (l : List ToolCall) (ctx : Ctx) :
    (processToolCalls cfg env l ctx).1.total_tokens_in = ctx.total_tokens_in :=
  (processToolCalls_fx cfg env l ctx).1

theorem processToolCalls_tout (cfg : ExecCfg) (env : Env) (l : List ToolCall) (ctx : Ctx) :
    (processToolCalls cfg env l ctx).1.total_tokens_out = ctx.total_tokens_out :=
  (processToolCalls_fx cfg env l ctx).2.1

end Glassbox

namespace Glassbox

theorem iterBody_fx (cfg : ExecCfg) (env : Env)
    (rec : Ctx → Ctx × List Effect × LoopOut)
    (hrec : ∀ c : Ctx,
      tokLE (c.total_tokens_in, c.total_tokens_out)
        ((rec c).1.total_tokens_in, (rec c).1.total_tokens_out) ∧
      SavesOK (c.total_tokens_in, c.total_tokens_out) (rec c).2.1
        ((rec c).1.total_tokens_in, (rec c).1.total_tokens_out) ∧
      KindsOK (rec c).2.1)
    (status : String) (hr : Option Json) (ctx : Ctx) :
    tokLE (ctx.total_tokens_in, ctx.total_tokens_out)
      ((iterBody cfg env rec status hr ctx).1.total_tokens_in,
       (iterBody cfg env rec status hr ctx).1.total_tokens_out) ∧
    SavesOK (ctx.total_tokens_in, ctx.total_tokens_out)
      (iterBody cfg env rec status hr ctx).2.1
      ((iterBody cfg env rec status hr ctx).1.total_tokens_in,
       (iterBody cfg env rec status hr ctx).1.total_tokens_out) ∧
    KindsOK (iterBody cfg env rec status hr ctx).2.1 := by
  unfold iterBody
  have hMfx := mergeHumanResponse_fx status hr ctx
  rcases hM : mergeHumanResponse status hr ctx with ⟨ctxM, evsH⟩
  rw [hM] at hMfx
  simp only at hMfx
  have hLfx := callLLM_fx cfg env ctxM
  rcases hL : callLLM cfg env ctxM with ⟨ctxL, evsL, resp⟩
  rw [hL] at hLfx
  simp only at hLfx
  rw [hMfx.1, hMfx.2.1] at hLfx
  simp only [hM, hL]
  have hSH : SavesOK (ctx.total_tokens_in, ctx.total_tokens_out) evsH
      (ctx.total_tokens_in, ctx.total_tokens_out) := savesOK_of_cases hMfx.2.2.1
  have hSL : SavesOK (ctx.total_tokens_in, ctx.total_tokens_out) evsL
      (ctxL.total_tokens_in, ctxL.total_tokens_out) := savesOK_no_save hLfx.2.1 hLfx.1
  split
  · split
    · refine ⟨?_, ?_, ?_⟩
      · simp only [updateStatusC_tin, updateStatusC_tout, appendMsg_tin, appendMsg_tout]
        exact hLfx.1
      · simp only [updateStatusC_tin, updateStatusC_tout, appendMsg_tin, appendMsg_tout,
          updateStatusC_effs]
        have h1 : SavesOK (ctxL.total_tokens_in, ctxL.total_tokens_out)
            [Effect.statusUpdate "complete" none ctxL.total_tokens_in ctxL.total_tokens_out]
            (ctxL.total_tokens_in, ctxL.total_tokens_out) :=
          savesOK_no_save rfl (tokLE_refl _)
        have h2 : SavesOK (ctxL.total_tokens_in, ctxL.total_tokens_out)
            [Effect.traceEvent "execution_complete"
              (Json.obj [("summary", Json.str ((resp.content.getD "").take 200))])]
            (ctxL.total_tokens_in, ctxL.total_tokens_out) :=
          savesOK_no_save rfl (tokLE_refl _)
        exact savesOK_append (savesOK_append (savesOK_append hSH hSL) h1) h2
      · refine kindsOK_append (kindsOK_append (kindsOK_append hMfx.2.2.2 hLfx.2.2) ?_) ?_
        · rw [updateStatusC_effs]
          exact kindsOK_cons (by simp [kindOK]) kindsOK_nil
        · exact kindsOK_cons (by simp [kindOK]; decide) kindsOK_nil
    · have hR := hrec (saveCheckpoint (appendMsg ctxL
        { role := "assistant", content := resp.content, tool_calls := resp.tool_calls })).1
      simp only [saveCheckpoint_tin, saveCheckpoint_tout, appendMsg_tin, appendMsg_tout] at hR
      refine ⟨?_, ?_, ?_⟩
      · exact tokLE_trans hLfx.1 hR.1
      · refine savesOK_append (savesOK_append (savesOK_append hSH hSL) ?_) hR.2.1
        rw [saveCheckpoint_effs, appendMsg_tin, appendMsg_tout]
        exact savesOK_of_cases (Or.inr rfl)
      · exact kindsOK_append (kindsOK_append (kindsOK_append hMfx.2.2.2 hLfx.2.2)
          (by rw [saveCheckpoint_effs]; exact kindsOK_cons (by simp [kindOK]) kindsOK_nil))
          hR.2.2
  · have hTfx := processToolCalls_fx cfg env resp.tool_calls (appendMsg ctxL
      { role := "assistant", content := resp.content, tool_calls := resp.tool_calls })
    rcases hT : processToolCalls cfg env resp.tool_calls (appendMsg ctxL
      { role := "assistant", content := resp.content, tool_calls := resp.tool_calls })
      with ⟨ctxT, evsT, out⟩
    rw [hT] at hTfx
    simp only [appendMsg_tin, appendMsg_tout] at hTfx
    have hST : SavesOK (ctxL.total_tokens_in, ctxL.total_tokens_out) evsT
        (ctxL.total_tokens_in, ctxL.total_tokens_out) := savesOK_of_cases hTfx.2.2.1
    cases out with
    | returned =>
      simp only [hT]
      refine ⟨?_, ?_, ?_⟩
      · rw [hTfx.1, hTfx.2.1]
        exact hLfx.1
      · rw [hTfx.1, hTfx.2.1]
        exact savesOK_append (savesOK_append hSH hSL) hST
      · exact kindsOK_append (kindsOK_append hMfx.2.2.2 hLfx.2.2) hTfx.2.2.2
    | raised e =>
      simp only [hT]
      refine ⟨?_, ?_, ?_⟩
      · rw [hTfx.1, hTfx.2.1]
        exact hLfx.1
      · rw [hTfx.1, hTfx.2.1]
        exact savesOK_append (savesOK_append hSH hSL) hST
      · exact kindsOK_append (kindsOK_append hMfx.2.2.2 hLfx.2.2) hTfx.2.2.2
    | next =>
      simp only [hT]
      have hR := hrec (saveCheckpoint ctxT).1
      simp only [saveCheckpoint_tin, saveCheckpoint_tout] at hR
      rw [hTfx.1, hTfx.2.1] at hR
      refine ⟨?_, ?_, ?_⟩
      · exact tokLE_trans hLfx.1 hR.1
      · refine savesOK_append (savesOK_append (savesOK_append
          (savesOK_append hSH hSL) hST) ?_) hR.2.1
        rw [saveCheckpoint_effs, hTfx.1, hTfx.2.1]
        exact savesOK_of_cases (Or.inr rfl)
      · exact kindsOK_append (kindsOK_append (kindsOK_append (kindsOK_append
          hMfx.2.2.2 hLfx.2.2) hTfx.2.2.2)
          (by rw [saveCheckpoint_effs]; exact kindsOK_cons (by simp [kindOK]) kindsOK_nil))
          hR.2.2

end Glassbox

namespace Glassbox

set_option maxHeartbeats 1600000 in
theorem loop_fx (cfg : ExecCfg) (env : Env) : ∀ (fuel : Nat) (ctx : Ctx),
    tokLE (ctx.total_tokens_in, ctx.total_tokens_out)
      ((loop cfg env fuel ctx).1.total_tokens_in, (loop cfg env fuel ctx).1.total_tokens_out) ∧
    SavesOK (ctx.total_tokens_in, ctx.total_tokens_out) (loop cfg env fuel ctx).2.1
      ((loop cfg env fuel ctx).1.total_tokens_in, (loop cfg env fuel ctx).1.total_tokens_out) ∧
    KindsOK (loop cfg env fuel ctx).2.1
  | 0, ctx => ⟨tokLE_refl _, savesOK_nil (tokLE_refl _), kindsOK_nil⟩
  | fuel + 1, ctx => by
    simp only [loop]
    split
    · exact ⟨tokLE_refl _, savesOK_no_save rfl (tokLE_refl _),
        kindsOK_cons (by simp [kindOK]; decide) kindsOK_nil⟩
    · split
      · refine ⟨?_, ?_, ?_⟩
        · exact tokLE_refl _
        · rw [saveCheckpoint_effs]
          exact savesOK_append (savesOK_of_cases (Or.inr rfl))
            (savesOK_no_save rfl (tokLE_refl _))
        · rw [saveCheckpoint_effs]
          exact kindsOK_append (kindsOK_cons (by simp [kindOK]) kindsOK_nil)
            (kindsOK_cons (by simp [kindOK]; decide) kindsOK_nil)
      · have h := iterBody_fx cfg env (loop cfg env fuel) (loop_fx cfg env fuel)
          ((checkExecutionStatus (env.interfere (ctx.state.iteration + 1) ctx.row)).1)
          ((checkExecutionStatus (env.interfere (ctx.state.iteration + 1) ctx.row)).2)
          { ctx with
            state := { ctx.state with iteration := ctx.state.iteration + 1 },
            row := env.interfere (ctx.state.iteration + 1) ctx.row }
        exact h

end Glassbox

namespace Glassbox

theorem updateStatusRow_effs (row : DbRow) (s : String) (e : Option String) (a b : Nat) :
    (updateStatusRow row s e a b).2 = [Effect.statusUpdate s e a b] := rfl

theorem resumeEvent_saveOf (m : String) (o : Option Checkpoint) :
    saveOf (resumeEvent m o) = none := by
  cases o <;> rfl

theorem resumeEvent_kindOK (m : String) (o : Option Checkpoint) :
    kindOK (resumeEvent m o) := by
  cases o <;> simp [resumeEvent, kindOK] <;> decide

theorem restoreHuman_saves (o : Option Checkpoint) (st : AgentState) :
    cpSaves (restoreHuman o st).2 = [] := by
  rcases o with _ | cp
  · rfl
  · simp only [restoreHuman]
    split <;> rfl

theorem restoreHuman_kinds (o : Option Checkpoint) (st : AgentState) :
    KindsOK (restoreHuman o st).2 := by
  rcases o with _ | cp
  · exact kindsOK_nil
  · simp only [restoreHuman]
    split
    · exact kindsOK_cons (by simp [kindOK]; decide) kindsOK_nil
    · exact kindsOK_nil

theorem epilogue_saves (ctx : Ctx) (o : LoopOut) : cpSaves (epilogue ctx o).2.1 = [] := by
  cases o <;> rfl

theorem epilogue_kinds (ctx : Ctx) (o : LoopOut) : KindsOK (epilogue ctx o).2.1 := by
  cases o
  · exact kindsOK_nil
  all_goals
    exact kindsOK_cons (by simp [kindOK]; decide)
      (kindsOK_cons (by simp [kindOK]) kindsOK_nil)

theorem run_chain_helper {A1 A2 A3 A5 L : List Effect} {t t' : Nat × Nat}
    (h1 : cpSaves A1 = []) (h2 : cpSaves A2 = []) (h3 : cpSaves A3 = [])
    (h5 : cpSaves A5 = []) (hL : SavesOK t L t') :
    List.Chain' tokLE (cpSaves ((((A1 ++ A2) ++ A3) ++ L) ++ A5)) := by
  rw [cpSaves_append, cpSaves_append, cpSaves_append, cpSaves_append, h1, h2, h3, h5]
  simpa using savesOK_bounds hL

/-- Effect-trace discipline of one whole run: checkpoint saves carry
monotonically non-decreasing token totals, and every trace event kind is
in the emitted catalogue. -/
theorem run_fx (cfg : ExecCfg) (env : Env) (row0 : DbRow) :
    List.Chain' tokLE (cpSaves (run cfg env row0).effects) ∧
    KindsOK (run cfg env row0).effects := by
  simp only [run]
  constructor
  · exact run_chain_helper (by rw [updateStatusRow_effs]; rfl)
      (by simp [cpSaves, resumeEvent_saveOf])
      (restoreHuman_saves _ _) (epilogue_saves _ _)
      ((loop_fx _ env _ _).2.1)
  · refine kindsOK_append (kindsOK_append (kindsOK_append (kindsOK_append
      ?_ ?_) ?_) ?_) ?_
    · rw [updateStatusRow_effs]
      exact kindsOK_cons (by simp [kindOK]) kindsOK_nil
    · exact kindsOK_cons (resumeEvent_kindOK _ _) kindsOK_nil
    · exact restoreHuman_kinds _ _
    · exact (loop_fx _ env _ _).2.2
    · exact epilogue_kinds _ _

end Glassbox

namespace Glassbox

/-- Number of turns of a transcript whose content equals the given string. -/
def countMsgContent (c : String) : List Msg → Nat
  | [] => 0
  | m :: rest => (if m.content = some c then 1 else 0) + countMsgContent c rest

/-- Concrete executor configuration used by the concrete-input theorems. -/
def cfgT : ExecCfg :=
  { node_id := "n1", execution_id := "e1", model := "m", org_id := some "org1" }

/-- A tool call with well-formed (parsed) arguments. -/
def mkTC (idv name : String) (args : ArgsDict) : ToolCall :=
  { id := idv, function := { name := name, arguments := .ok args } }

/-- Environment with a fixed gateway behaviour, no external interference
and fixed node/input rows. -/
def envOf (f : Nat → LLMResponse) : Env :=
  { llm := f, interfere := fun _ r => r, parseJson := fun _ => .error "bad json",
    node := { title := some "T", org_id := some "org1" }, inputs := [] }

/-- Assistant turn that finishes the task by its text alone. -/
def respDone : LLMResponse := { content := some "Task complete.", usage := ⟨1, 2⟩ }

/-- Assistant turn that neither calls tools nor mentions completion. -/
def respPlain : LLMResponse := { content := some "still working", usage := ⟨3, 5⟩ }

/-- Checkpoint of a suspended execution with one transcript turn and a
pending human response, the failing input of C1. -/
def cpC1 : Checkpoint :=
  { messages := [{ role := "system", content := some "S" }], iteration := 3,
    outputs := [], subNodesCreated := [], currentStep := "start",
    humanInputRequest := some (Json.str "q"),
    humanInputResponse := some (Json.str "EMEA") }

/-- Execution row of the suspended execution of C1. -/
def rowC1 : DbRow :=
  { status := "awaiting_input", checkpoint := some cpC1,
    total_tokens_in := 7, total_tokens_out := 9 }

/-- Environment of the C1 resume run. -/
def envC1 : Env := envOf fun _ => respDone

/-- C1: the claim is violated by the code. Resuming from a checkpoint with
transcript T and pending human response "EMEA" makes the first gateway
call with T plus TWO identical appended user turns carrying the
response, not exactly one: the restore block (executor.py lines 309-316)
appends it, and the status poll of the first loop iteration reads the
stored checkpoint, which still holds the response because the cleared
field was never persisted, and appends it again (lines 352-360). This
theorem evaluates the model at that failing input. -/
theorem C1_resume_first_transcript_double_append :
    firstLLM (run cfgT envC1 rowC1).effects =
      some (cpC1.messages ++
        [{ role := "user",
           content := some ("Human response: " ++ Json.dumps (Json.str "EMEA")) },
         { role := "user",
           content := some ("Human response: " ++ Json.dumps (Json.str "EMEA")) }]) := by
  rfl

/-- Checkpoint with a pending human response "blue", the failing input of
C5. -/
def cpC5 : Checkpoint :=
  { messages := [{ role := "system", content := some "S" }], iteration := 1,
    outputs := [], subNodesCreated := [], currentStep := "start",
    humanInputRequest := some (Json.str "q"),
    humanInputResponse := some (Json.str "blue") }

/-- Execution row of the suspended execution of C5. -/
def rowC5 : DbRow :=
  { status := "awaiting_input", checkpoint := some cpC5,
    total_tokens_in := 2, total_tokens_out := 4 }

/-- Environment of the C5 resume run. -/
def envC5 : Env := envOf fun _ => respDone

/-- C5: the claim is violated by the code. One pending human response is
applied to the transcript twice in a single resumed run (the restore
path and the loop-top poll both append it), and a human_input_received
event is logged twice, because the reload path clears the in-memory
field without persisting the checkpoint. This theorem evaluates the
model at that failing input. -/
theorem C5_response_applied_twice :
    countKind "human_input_received" (run cfgT envC5 rowC5).effects = 2 ∧
    firstLLM (run cfgT envC5 rowC5).effects =
      some (cpC5.messages ++
        [{ role := "user",
           content := some ("Human response: " ++ Json.dumps (Json.str "blue")) },
         { role := "user",
           content := some ("Human response: " ++ Json.dumps (Json.str "blue")) }]) := by
  exact ⟨by rfl, by rfl⟩

/-- Fresh execution row, no checkpoint. -/
def rowFresh : DbRow := { status := "pending" }

/-- Gateway turn carrying a batch of two tool calls, mark_complete first
and add_output second. -/
def envC2 : Env := envOf fun _ =>
  { content := none,
    tool_calls := [mkTC "t1" "mark_complete" { summary := some "done" },
                   mkTC "t2" "add_output" { ty := some "text", content := some "hello" }],
    usage := ⟨2, 2⟩ }

/-- C2 counterexample: with a batch [mark_complete, add_output], the run
reaches status complete but performs NO storage effect, records no
output, and dispatches only one tool call (a single tool_call trace
event): the add_output sibling later in the batch is discarded,
contradicting the claim that remaining tool calls are still executed. -/
theorem C2_counterexample_sibling_discarded :
    storageCount (run cfgT envC2 rowFresh).effects = 0 ∧
    (run cfgT envC2 rowFresh).ctx.state.outputs = [] ∧
    (run cfgT envC2 rowFresh).ctx.row.status = "complete" ∧
    countKind "tool_call" (run cfgT envC2 rowFresh).effects = 1 := by
  exact ⟨by rfl, by rfl, by rfl, by rfl⟩

/-- Gateway turn that requests human input. -/
def envC8 : Env := envOf fun _ =>
  { content := none,
    tool_calls := [mkTC "t1" "request_human_input" { question := some "Which region?" }],
    usage := ⟨2, 2⟩ }

/-- C8 counterexample: a run whose model requests human input emits the
trace kind awaiting_human_input (executor.py line 391), which is not
among the twelve kinds the claim enumerates. -/
theorem C8_counterexample_awaiting_kind :
    traceKinds (run cfgT envC8 rowFresh).effects =
      ["execution_start", "llm_call", "tool_call", "human_input_requested",
       "awaiting_human_input"] ∧
    "awaiting_human_input" ∉ specTraceKinds := by
  exact ⟨by rfl, by decide⟩

/-- C8 (amended): every trace event kind the engine emits during any run
is one of the thirteen kinds: the twelve enumerated by the spec plus
awaiting_human_input. -/
theorem C8_trace_kinds_closed (cfg : ExecCfg) (env : Env) (row0 : DbRow) :
    ∀ k ∈ traceKinds (run cfg env row0).effects, k ∈ emittedTraceKinds :=
  kindsOK_traceKinds (run_fx cfg env row0).2

end Glassbox

namespace Glassbox

theorem saveCheckpoint_state (ctx : Ctx) : (saveCheckpoint ctx).1.state = ctx.state := rfl

/-- Context after the iteration-counter bump and the external interference
at the top of one loop pass. -/
def pollCtx (env : Env) (ctx : Ctx) : Ctx :=
  { ctx with
    state := { ctx.state with iteration := ctx.state.iteration + 1 },
    row := env.interfere (ctx.state.iteration + 1) ctx.row }

/-- C4: when the status poll at the top of an iteration observes paused,
the loop writes exactly one checkpoint and one execution_paused event
and returns (no further status write, the row keeps the paused status);
when it observes cancelled, the loop returns immediately with exactly
one execution_cancelled event: no checkpoint write and no status
write. -/
theorem C4_pause_cancel_poll (cfg : ExecCfg) (env : Env) (fuel : Nat) (ctx : Ctx) :
    ((env.interfere (ctx.state.iteration + 1) ctx.row).present = true →
     (env.interfere (ctx.state.iteration + 1) ctx.row).status = "paused" →
     loop cfg env (fuel + 1) ctx =
       ((saveCheckpoint (pollCtx env ctx)).1,
        (saveCheckpoint (pollCtx env ctx)).2 ++
          [Effect.traceEvent "execution_paused"
            (Json.obj [("iteration", Json.num (ctx.state.iteration + 1))])],
        LoopOut.returned) ∧
     (loop cfg env (fuel + 1) ctx).1.row.status = "paused" ∧
     statusWrites (loop cfg env (fuel + 1) ctx).2.1 = [] ∧
     saveCount (loop cfg env (fuel + 1) ctx).2.1 = 1) ∧
    ((env.interfere (ctx.state.iteration + 1) ctx.row).present = true →
     (env.interfere (ctx.state.iteration + 1) ctx.row).status = "cancelled" →
     loop cfg env (fuel + 1) ctx =
       (pollCtx env ctx, [Effect.traceEvent "execution_cancelled" (Json.obj [])],
        LoopOut.returned)) := by
  constructor
  · intro hp hst
    have hcs : checkExecutionStatus (env.interfere (ctx.state.iteration + 1) ctx.row) =
        ("paused", match (env.interfere (ctx.state.iteration + 1) ctx.row).checkpoint with
                   | some cp => cp.humanInputResponse
                   | none => none) := by
      unfold checkExecutionStatus
      rw [if_pos hp, hst]
    have hloop : loop cfg env (fuel + 1) ctx =
        ((saveCheckpoint (pollCtx env ctx)).1,
         (saveCheckpoint (pollCtx env ctx)).2 ++
           [Effect.traceEvent "execution_paused"
             (Json.obj [("iteration", Json.num (ctx.state.iteration + 1))])],
         LoopOut.returned) := by
      simp only [loop, hcs]
      simp [pollCtx, saveCheckpoint_state]
    refine ⟨hloop, ?_, ?_, ?_⟩
    · rw [hloop]
      show (saveCheckpoint (pollCtx env ctx)).1.row.status = "paused"
      unfold saveCheckpoint
      split <;> simp [pollCtx, hst]
    · rw [hloop, saveCheckpoint_effs]
      rfl
    · rw [hloop, saveCheckpoint_effs]
      rfl
  · intro hp hst
    have hcs : checkExecutionStatus (env.interfere (ctx.state.iteration + 1) ctx.row) =
        ("cancelled", match (env.interfere (ctx.state.iteration + 1) ctx.row).checkpoint with
                      | some cp => cp.humanInputResponse
                      | none => none) := by
      unfold checkExecutionStatus
      rw [if_pos hp, hst]
    simp only [loop, hcs]
    simp [pollCtx]

/-- C9: when the status poll at the top of an iteration finds no execution
row at all, the loop behaves exactly as an external cancellation: it
emits one execution_cancelled trace event and returns without raising,
with no checkpoint write and no status write. -/
theorem C9_missing_row_cancels (cfg : ExecCfg) (env : Env) (fuel : Nat) (ctx : Ctx)
    (h : (env.interfere (ctx.state.iteration + 1) ctx.row).present = false) :
    loop cfg env (fuel + 1) ctx =
      (pollCtx env ctx, [Effect.traceEvent "execution_cancelled" (Json.obj [])],
       LoopOut.returned) := by
  have hcs : checkExecutionStatus (env.interfere (ctx.state.iteration + 1) ctx.row) =
      ("cancelled", none) := by
    unfold checkExecutionStatus
    rw [h]
    simp
  simp only [loop, hcs, pollCtx]
  norm_num

end Glassbox

namespace Glassbox

/-- C7: an add_output tool call of type structured_data whose content does
not parse as JSON fails before any storage step: the call returns the
parse error, the state is unchanged apart from the two consumed uuid
draws (in particular no output entry is appended), and no S3 upload, no
file row and no node_output row is written; at the dispatch level only
the tool_call trace event precedes the failure. -/
theorem C7_invalid_structured_data (cfg : ExecCfg) (env : Env) (args : ArgsDict)
    (ctx : Ctx) (c e idv : String)
    (hty : args.ty = some "structured_data")
    (hct : args.content = some c)
    (hpj : env.parseJson c = .error e) :
    addOutput cfg env args ctx = ({ ctx with gensym := ctx.gensym + 2 }, [], .error e) ∧
    executeTool cfg env (mkTC idv "add_output" args) ctx =
      ({ ctx with gensym := ctx.gensym + 2 },
       [Effect.traceEvent "tool_call" (Json.obj [("tool", Json.str "add_output"),
          ("arguments", Json.obj (argsFields args))])],
       .error e) := by
  have h1 : addOutput cfg env args ctx =
      ({ ctx with gensym := ctx.gensym + 2 }, [], .error e) := by
    unfold addOutput
    simp [hty, hct, hpj, Except.map]
  refine ⟨h1, ?_⟩
  unfold executeTool
  simp [mkTC, h1]

/-- C2 (amended): when the dispatched call that signals mark-complete is
reached in the batch, the run stops with status complete immediately
after appending the result turn of that call: the remaining tool calls
of the turn are NOT executed (processing a batch headed by mark_complete
equals processing the singleton batch, whatever follows), exactly one
status write ("complete") happens, and the batch outcome is returned. -/
theorem C2_mark_complete_short_circuits (cfg : ExecCfg) (env : Env) (ctx : Ctx)
    (idv : String) (args : ArgsDict) (rest : List ToolCall)
    (hhin : ctx.state.human_input_needed = false) :
    processToolCalls cfg env (mkTC idv "mark_complete" args :: rest) ctx =
      processToolCalls cfg env [mkTC idv "mark_complete" args] ctx ∧
    (processToolCalls cfg env (mkTC idv "mark_complete" args :: rest) ctx).2.2 =
      BatchOut.returned ∧
    statusWrites (processToolCalls cfg env (mkTC idv "mark_complete" args :: rest) ctx).2.1 =
      [("complete", none)] := by
  have hstep : ∀ l : List ToolCall,
      processToolCalls cfg env (mkTC idv "mark_complete" args :: l) ctx =
      ((updateStatusC (appendMsg
          { ctx with state := { ctx.state with current_step := "complete" } }
          { role := "tool", tool_call_id := some idv,
            content := some ("Node marked as complete: " ++ args.summary.getD "") })
          "complete" none).1,
       [Effect.traceEvent "tool_call" (Json.obj [("tool", Json.str "mark_complete"),
          ("arguments", Json.obj (argsFields args))])] ++
       (updateStatusC (appendMsg
          { ctx with state := { ctx.state with current_step := "complete" } }
          { role := "tool", tool_call_id := some idv,
            content := some ("Node marked as complete: " ++ args.summary.getD "") })
          "complete" none).2 ++
       [Effect.traceEvent "execution_complete"
          (Json.obj [("summary", Json.str "Task completed")])],
       BatchOut.returned) := by
    intro l
    simp only [processToolCalls, executeTool, mkTC]
    simp [appendMsg, hhin]
  refine ⟨(hstep rest).trans (hstep []).symm, ?_, ?_⟩
  · rw [hstep rest]
  · rw [hstep rest, updateStatusC_effs]
    rfl

end Glassbox

namespace Glassbox

/-- C10: on resume from a checkpoint whose pending human response is
truthy, the human_input_received event emitted during state restoration
is the third effect of the run, and its payload records a null response:
the in-memory field is cleared before the event payload is built
(executor.py lines 315-316). -/
theorem C10_restore_event_response_null (cfg : ExecCfg) (env : Env) (row0 : DbRow)
    (cp : Checkpoint) (hp : row0.present = true) (hcp : row0.checkpoint = some cp)
    (ht : optTruthy cp.humanInputResponse = true) :
    (run cfg env row0).effects.take 3 =
      [Effect.statusUpdate "running" none row0.total_tokens_in row0.total_tokens_out,
       Effect.traceEvent "execution_resume"
         (Json.obj [("model", Json.str cfg.model), ("iteration", Json.num cp.iteration)]),
       Effect.traceEvent "human_input_received"
         (Json.obj [("response", Json.null)])] := by
  have hlc : loadCheckpoint row0 = (some cp, row0.total_tokens_in, row0.total_tokens_out) := by
    unfold loadCheckpoint
    rw [if_pos hp, hcp]
  simp only [run, hlc]
  simp [updateStatusRow, resumeEvent, restoreHuman, initState, ht, optJson]

end Glassbox

namespace Glassbox

theorem saveCheckpoint_row_present (ctx : Ctx) :
    (saveCheckpoint ctx).1.row.present = ctx.row.present := by
  unfold saveCheckpoint
  split <;> rfl

theorem saveCheckpoint_row_status (ctx : Ctx) :
    (saveCheckpoint ctx).1.row.status = ctx.row.status := by
  unfold saveCheckpoint
  split <;> rfl

theorem saveCheckpoint_row_checkpoint (ctx : Ctx) (h : ctx.row.present = true) :
    (saveCheckpoint ctx).1.row.checkpoint = some (checkpointOf ctx.state) := by
  unfold saveCheckpoint
  simp [h]

end Glassbox

namespace Glassbox

theorem updateStatusRow_present (row : DbRow) (s : String) (e : Option String) (a b : Nat) :
    (updateStatusRow row s e a b).1.present = row.present := by
  unfold updateStatusRow
  split <;> rfl

theorem updateStatusRow_status (row : DbRow) (s : String) (e : Option String) (a b : Nat)
    (h : row.present = true) : (updateStatusRow row s e a b).1.status = s := by
  unfold updateStatusRow
  simp [h]

theorem updateStatusRow_checkpoint (row : DbRow) (s : String) (e : Option String) (a b : Nat) :
    (updateStatusRow row s e a b).1.checkpoint = row.checkpoint := by
  unfold updateStatusRow
  split <;> rfl

theorem updateStatusC_state (ctx : Ctx) (s : String) (e : Option String) :
    (updateStatusC ctx s e).1.state = ctx.state := rfl

theorem updateStatusC_row_status (ctx : Ctx) (s : String) (e : Option String)
    (h : ctx.row.present = true) : (updateStatusC ctx s e).1.row.status = s := by
  unfold updateStatusC updateStatusRow
  simp [h]

theorem updateStatusC_row_error (ctx : Ctx) (s : String) (e : Option String)
    (h : ctx.row.present = true) : (updateStatusC ctx s e).1.row.error_message = e := by
  unfold updateStatusC updateStatusRow
  simp [h]

end Glassbox

namespace Glassbox

theorem appendMsg_row (ctx : Ctx) (m : Msg) : (appendMsg ctx m).row = ctx.row := rfl

theorem appendMsg_iteration (ctx : Ctx) (m : Msg) :
    (appendMsg ctx m).state.iteration = ctx.state.iteration := rfl

theorem callLLM_state (cfg : ExecCfg) (env : Env) (ctx : Ctx) :
    (callLLM cfg env ctx).1.state = ctx.state := rfl

theorem callLLM_row (cfg : ExecCfg) (env : Env) (ctx : Ctx) :
    (callLLM cfg env ctx).1.row = ctx.row := rfl

theorem callLLM_llm (cfg : ExecCfg) (env : Env) (ctx : Ctx) :
    llmTranscripts (callLLM cfg env ctx).2.1 = [ctx.state.messages] := rfl

theorem saveCheckpoint_llm (ctx : Ctx) : llmTranscripts (saveCheckpoint ctx).2 = [] := rfl

theorem updateStatusC_llm (ctx : Ctx) (s : String) (e : Option String) :
    llmTranscripts (updateStatusC ctx s e).2 = [] := rfl

theorem updateStatusC_row_present (ctx : Ctx) (s : String) (e : Option String) :
    (updateStatusC ctx s e).1.row.present = ctx.row.present := by
  unfold updateStatusC
  exact updateStatusRow_present ctx.row s e ctx.total_tokens_in ctx.total_tokens_out

theorem llmTranscripts_append (l1 l2 : List Effect) :
    llmTranscripts (l1 ++ l2) = llmTranscripts l1 ++ llmTranscripts l2 := by
  simp [llmTranscripts]

theorem llmCount_append (l1 l2 : List Effect) :
    llmCount (l1 ++ l2) = llmCount l1 + llmCount l2 := by
  simp [llmCount, llmTranscripts_append]

theorem createSubnode_inv (cfg : ExecCfg) (args : ArgsDict) (ctx : Ctx) :
    (createSubnode cfg args ctx).1.row = ctx.row ∧
    (createSubnode cfg args ctx).1.state.iteration = ctx.state.iteration ∧
    llmTranscripts (createSubnode cfg args ctx).2.1 = [] := by
  unfold createSubnode
  rcases ht : args.title with _ | t <;> rcases ha : args.author_type with _ | a <;>
    simp [llmTranscripts, transcriptOf]

theorem addOutput_inv (cfg : ExecCfg) (env : Env) (args : ArgsDict) (ctx : Ctx) :
    (addOutput cfg env args ctx).1.row = ctx.row ∧
    (addOutput cfg env args ctx).1.state.iteration = ctx.state.iteration ∧
    llmTranscripts (addOutput cfg env args ctx).2.1 = [] := by
  unfold addOutput
  rcases ht : args.ty with _ | oty <;> rcases hc : args.content with _ | ct <;>
    simp only [ht, hc] <;>
    (repeat' split) <;>
    simp [llmTranscripts, transcriptOf]

theorem requestHumanInput_inv (args : ArgsDict) (ctx : Ctx) :
    (requestHumanInput args ctx).1.row = ctx.row ∧
    (requestHumanInput args ctx).1.state.iteration = ctx.state.iteration ∧
    llmTranscripts (requestHumanInput args ctx).2.1 = [] := by
  unfold requestHumanInput
  rcases hq : args.question with _ | q <;>
    simp [llmTranscripts, transcriptOf]

theorem executeTool_inv (cfg : ExecCfg) (env : Env) (tc : ToolCall) (ctx : Ctx) :
    (executeTool cfg env tc ctx).1.row = ctx.row ∧
    (executeTool cfg env tc ctx).1.state.iteration = ctx.state.iteration ∧
    llmTranscripts (executeTool cfg env tc ctx).2.1 = [] := by
  unfold executeTool
  rcases ha : tc.function.arguments with e | args
  · exact ⟨rfl, rfl, rfl⟩
  · simp only
    split
    · have h := createSubnode_inv cfg args ctx
      rcases hcs : createSubnode cfg args ctx with ⟨ctx1, evs1, res1⟩
      rw [hcs] at h
      refine ⟨h.1, h.2.1, ?_⟩
      have h3 := h.2.2
      simp only [llmTranscripts, List.filterMap] at h3 ⊢
      simp [transcriptOf, h3]
    · split
      · have h := addOutput_inv cfg env args ctx
        rcases hao : addOutput cfg env args ctx with ⟨ctx1, evs1, res1⟩
        rw [hao] at h
        refine ⟨h.1, h.2.1, ?_⟩
        have h3 := h.2.2
        simp only [llmTranscripts, List.filterMap] at h3 ⊢
        simp [transcriptOf, h3]
      · split
        · have h := requestHumanInput_inv args ctx
          rcases hrh : requestHumanInput args ctx with ⟨ctx1, evs1, res1⟩
          rw [hrh] at h
          refine ⟨h.1, h.2.1, ?_⟩
          have h3 := h.2.2
          simp only [llmTranscripts, List.filterMap] at h3 ⊢
          simp [transcriptOf, h3]
        · split
          · exact ⟨rfl, rfl, rfl⟩
          · exact ⟨rfl, rfl, rfl⟩

end Glassbox

namespace Glassbox

theorem processToolCalls_inv (cfg : ExecCfg) (env : Env) :
    ∀ (l : List ToolCall) (ctx : Ctx),
    (processToolCalls cfg env l ctx).1.row.present = ctx.row.present ∧
    (processToolCalls cfg env l ctx).1.state.iteration = ctx.state.iteration ∧
    llmTranscripts (processToolCalls cfg env l ctx).2.1 = []
  | [], ctx => ⟨rfl, rfl, rfl⟩
  | tc :: rest, ctx => by
    have hx := executeTool_inv cfg env tc ctx
    rcases he : executeTool cfg env tc ctx with ⟨ctx1, evs1, res⟩
    rw [he] at hx
    simp only at hx
    simp only [processToolCalls, he]
    cases res with
    | error e =>
      exact ⟨by rw [hx.1], hx.2.1, hx.2.2⟩
    | ok result =>
      simp only []
      split
      · refine ⟨?_, ?_, ?_⟩
        · rw [updateStatusC_row_present, saveCheckpoint_row_present, appendMsg_row, hx.1]
        · rw [updateStatusC_state, saveCheckpoint_state, appendMsg_iteration, hx.2.1]
        · rw [llmTranscripts_append, llmTranscripts_append, llmTranscripts_append,
            hx.2.2, saveCheckpoint_llm, updateStatusC_llm]
          rfl
      · split
        · refine ⟨?_, ?_, ?_⟩
          · rw [updateStatusC_row_present, appendMsg_row, hx.1]
          · rw [updateStatusC_state, appendMsg_iteration, hx.2.1]
          · rw [llmTranscripts_append, llmTranscripts_append, hx.2.2, updateStatusC_llm]
            rfl
        · have ih := processToolCalls_inv cfg env rest
            (appendMsg ctx1 ⟨"tool", some result, [], some tc.id⟩)
          refine ⟨?_, ?_, ?_⟩
          · rw [ih.1, appendMsg_row, hx.1]
          · rw [ih.2.1, appendMsg_iteration, hx.2.1]
          · rw [llmTranscripts_append, hx.2.2, ih.2.2]
            rfl

theorem mergeHumanResponse_inv (status : String) (hr : Option Json) (ctx : Ctx) :
    (mergeHumanResponse status hr ctx).1.state.iteration = ctx.state.iteration ∧
    (mergeHumanResponse status hr ctx).1.row.present = ctx.row.present ∧
    llmTranscripts (mergeHumanResponse status hr ctx).2 = [] := by
  unfold mergeHumanResponse
  split
  · refine ⟨?_, ?_, ?_⟩
    · rw [saveCheckpoint_state, appendMsg_iteration]
    · rw [saveCheckpoint_row_present, appendMsg_row]
    · simp [llmTranscripts, transcriptOf, saveCheckpoint]
  · exact ⟨rfl, rfl, rfl⟩

end Glassbox

namespace Glassbox

set_option maxHeartbeats 1600000 in
theorem iterBody_iters (cfg : ExecCfg) (env : Env)
    (rec : Ctx → Ctx × List Effect × LoopOut) (n : Nat)
    (hrec : ∀ c : Ctx,
      llmCount (rec c).2.1 ≤ n ∧
      ((rec c).2.2 = LoopOut.fellThrough →
        (rec c).1.state.iteration = c.state.iteration + n ∧
        llmCount (rec c).2.1 = n ∧
        (c.row.present = true → (rec c).1.row.present = true)))
    (status : String) (hr : Option Json) (ctx : Ctx) :
    llmCount (iterBody cfg env rec status hr ctx).2.1 ≤ n + 1 ∧
    ((iterBody cfg env rec status hr ctx).2.2 = LoopOut.fellThrough →
      (iterBody cfg env rec status hr ctx).1.state.iteration = ctx.state.iteration + n ∧
      llmCount (iterBody cfg env rec status hr ctx).2.1 = n + 1 ∧
      (ctx.row.present = true → (iterBody cfg env rec status hr ctx).1.row.present = true)) := by
  unfold iterBody
  have hMinv := mergeHumanResponse_inv status hr ctx
  rcases hM : mergeHumanResponse status hr ctx with ⟨ctxM, evsH⟩
  rw [hM] at hMinv
  simp only at hMinv
  have hLst := callLLM_state cfg env ctxM
  have hLrow := callLLM_row cfg env ctxM
  have hLllm := callLLM_llm cfg env ctxM
  rcases hL : callLLM cfg env ctxM with ⟨ctxL, evsL, resp⟩
  rw [hL] at hLst hLrow hLllm
  simp only at hLst hLrow hLllm
  have h0 : llmCount evsH = 0 := by simp [llmCount, hMinv.2.2]
  have h1 : llmCount evsL = 1 := by simp [llmCount, hLllm]
  have hS : ∀ c : Ctx, llmCount (saveCheckpoint c).2 = 0 := fun c => by
    simp [llmCount, saveCheckpoint_llm]
  have hU : ∀ (c : Ctx) (s : String) (e : Option String),
      llmCount (updateStatusC c s e).2 = 0 := fun c s e => by
    simp [llmCount, updateStatusC_llm]
  have hT1 : ∀ (k : String) (p : Json), llmCount [Effect.traceEvent k p] = 0 :=
    fun k p => rfl
  simp only [hM, hL]
  split
  · split
    · constructor
      · simp only [llmCount_append, h0, h1, hU, hT1]
        omega
      · intro h
        exact LoopOut.noConfusion h
    · constructor
      · have key : ∀ m k : Nat, m ≤ k → 1 + m ≤ k + 1 := fun m k hmk => by omega
        simp only [llmCount_append, h0, h1, hS, Nat.zero_add, Nat.add_zero]
        exact key _ _ (hrec _).1
      · intro h
        obtain ⟨hi, hc, hp⟩ := (hrec (saveCheckpoint (appendMsg ctxL
          { role := "assistant", content := resp.content,
            tool_calls := resp.tool_calls })).1).2 h
        refine ⟨?_, ?_, ?_⟩
        · rw [hi]
          have hstep : (saveCheckpoint (appendMsg ctxL
              { role := "assistant", content := resp.content,
                tool_calls := resp.tool_calls })).1.state.iteration =
              ctx.state.iteration := by
            rw [saveCheckpoint_state, appendMsg_iteration, hLst]
            exact hMinv.1
          rw [hstep]
        · simp only [llmCount_append, h0, h1, hS, hc]
          omega
        · intro hpr
          apply hp
          rw [saveCheckpoint_row_present, appendMsg_row, hLrow, hMinv.2.1]
          exact hpr
  · have hTinv := processToolCalls_inv cfg env resp.tool_calls (appendMsg ctxL
      { role := "assistant", content := resp.content, tool_calls := resp.tool_calls })
    rcases hT : processToolCalls cfg env resp.tool_calls (appendMsg ctxL
      { role := "assistant", content := resp.content, tool_calls := resp.tool_calls })
      with ⟨ctxT, evsT, out⟩
    rw [hT] at hTinv
    simp only at hTinv
    have hTll : llmCount evsT = 0 := by simp [llmCount, hTinv.2.2]
    cases out with
    | returned =>
      simp only [hT]
      constructor
      · simp only [llmCount_append, h0, h1, hTll]
        omega
      · intro h
        exact LoopOut.noConfusion h
    | raised e =>
      simp only [hT]
      constructor
      · simp only [llmCount_append, h0, h1, hTll]
        omega
      · intro h
        exact LoopOut.noConfusion h
    | next =>
      simp only [hT]
      constructor
      · have key : ∀ m k : Nat, m ≤ k → 1 + m ≤ k + 1 := fun m k hmk => by omega
        simp only [llmCount_append, h0, h1, hTll, hS, Nat.zero_add, Nat.add_zero]
        exact key _ _ (hrec _).1
      · intro h
        obtain ⟨hi, hc, hp⟩ := (hrec (saveCheckpoint ctxT).1).2 h
        refine ⟨?_, ?_, ?_⟩
        · rw [hi]
          have hstep : (saveCheckpoint ctxT).1.state.iteration = ctx.state.iteration := by
            rw [saveCheckpoint_state, hTinv.2.1, appendMsg_iteration, hLst]
            exact hMinv.1
          rw [hstep]
        · simp only [llmCount_append, h0, h1, hTll, hS, hc]
          omega
        · intro hpr
          apply hp
          rw [saveCheckpoint_row_present, hTinv.1, appendMsg_row, hLrow, hMinv.2.1]
          exact hpr

end Glassbox

namespace Glassbox

set_option maxHeartbeats 1600000 in
theorem loop_iters (cfg : ExecCfg) (env : Env) : ∀ (fuel : Nat) (ctx : Ctx),
    llmCount (loop cfg env fuel ctx).2.1 ≤ fuel ∧
    ((loop cfg env fuel ctx).2.2 = LoopOut.fellThrough →
      (loop cfg env fuel ctx).1.state.iteration = ctx.state.iteration + fuel ∧
      llmCount (loop cfg env fuel ctx).2.1 = fuel ∧
      (ctx.row.present = true → (loop cfg env fuel ctx).1.row.present = true))
  | 0, ctx => ⟨Nat.le_refl 0, fun _ => ⟨rfl, rfl, fun h => h⟩⟩
  | fuel + 1, ctx => by
    simp only [loop]
    split
    · exact ⟨Nat.zero_le _, fun h => LoopOut.noConfusion h⟩
    · split
      · constructor
        · have hS : ∀ c : Ctx, llmCount (saveCheckpoint c).2 = 0 := fun c => by
            simp [llmCount, saveCheckpoint_llm]
          have hT1 : ∀ (k : String) (p : Json), llmCount [Effect.traceEvent k p] = 0 :=
            fun k p => rfl
          simp only [llmCount_append, hS, hT1]
          omega
        · intro h
          exact LoopOut.noConfusion h
      · rename_i hc1 hc2
        have hpres : (env.interfere (ctx.state.iteration + 1) ctx.row).present = true := by
          by_contra hnp
          apply hc1
          unfold checkExecutionStatus
          rw [Bool.not_eq_true] at hnp
          rw [hnp]
          rfl
        have hIB := iterBody_iters cfg env (loop cfg env fuel) fuel (loop_iters cfg env fuel)
          (checkExecutionStatus (env.interfere (ctx.state.iteration + 1) ctx.row)).1
          (checkExecutionStatus (env.interfere (ctx.state.iteration + 1) ctx.row)).2
          { ctx with
            state := { ctx.state with iteration := ctx.state.iteration + 1 },
            row := env.interfere (ctx.state.iteration + 1) ctx.row }
        refine ⟨hIB.1, ?_⟩
        intro h
        obtain ⟨hi, hcn, hp⟩ := hIB.2 h
        refine ⟨?_, hcn, fun _ => hp hpres⟩
        rw [hi]
        show ctx.state.iteration + 1 + fuel = ctx.state.iteration + (fuel + 1)
        omega

end Glassbox

namespace Glassbox

/-- The executor configuration after the org_id fallback of run
(lines 292-293). -/
def startCfg (cfg : ExecCfg) (env : Env) : ExecCfg :=
  { cfg with org_id := resolveOrgId cfg.org_id env.node.org_id }

/-- The agent state with which run enters the while-loop (lines 296-316):
checkpoint restore or fresh construction, then the resume-time merge of a
pending human response. -/
def startState (cfg : ExecCfg) (env : Env) (row0 : DbRow) : AgentState :=
  (restoreHuman (loadCheckpoint row0).1
    (initState (startCfg cfg env) env.node env.inputs (loadCheckpoint row0).1)).1

/-- The context with which run enters the while-loop: restored state, the
row after the status write to running, and the token totals read back by
_load_checkpoint. -/
def startCtx (cfg : ExecCfg) (env : Env) (row0 : DbRow) : Ctx :=
  { state := startState cfg env row0,
    row := (updateStatusRow row0 "running" none (loadCheckpoint row0).2.1
      (loadCheckpoint row0).2.2).1,
    total_tokens_in := (loadCheckpoint row0).2.1,
    total_tokens_out := (loadCheckpoint row0).2.2,
    gensym := 0 }

/-- The while-loop call made by run, with fuel max_iterations minus the
restored iteration counter (the while condition of line 335). -/
def runLoop (cfg : ExecCfg) (env : Env) (row0 : DbRow) : Ctx × List Effect × LoopOut :=
  loop (startCfg cfg env) env (maxIterations - (startState cfg env row0).iteration)
    (startCtx cfg env row0)

theorem run_ctx_eq (cfg : ExecCfg) (env : Env) (row0 : DbRow) :
    (run cfg env row0).ctx =
      (epilogue (runLoop cfg env row0).1 (runLoop cfg env row0).2.2).1 := rfl

theorem run_raised_eq (cfg : ExecCfg) (env : Env) (row0 : DbRow) :
    (run cfg env row0).raised =
      (epilogue (runLoop cfg env row0).1 (runLoop cfg env row0).2.2).2.2 := rfl

theorem run_effects_eq (cfg : ExecCfg) (env : Env) (row0 : DbRow) :
    (run cfg env row0).effects =
      (updateStatusRow row0 "running" none (loadCheckpoint row0).2.1
        (loadCheckpoint row0).2.2).2 ++
      [resumeEvent cfg.model (loadCheckpoint row0).1] ++
      (restoreHuman (loadCheckpoint row0).1
        (initState (startCfg cfg env) env.node env.inputs (loadCheckpoint row0).1)).2 ++
      (runLoop cfg env row0).2.1 ++
      (epilogue (runLoop cfg env row0).1 (runLoop cfg env row0).2.2).2.1 := rfl

theorem restoreHuman_iteration (o : Option Checkpoint) (st : AgentState) :
    (restoreHuman o st).1.iteration = st.iteration := by
  rcases o with _ | cp
  · rfl
  · simp only [restoreHuman]
    split <;> rfl

theorem restoreHuman_llm (o : Option Checkpoint) (st : AgentState) :
    llmTranscripts (restoreHuman o st).2 = [] := by
  rcases o with _ | cp
  · rfl
  · simp only [restoreHuman]
    split <;> rfl

theorem resumeEvent_llm (m : String) (o : Option Checkpoint) :
    llmTranscripts [resumeEvent m o] = [] := by
  cases o <;> rfl

theorem epilogue_llm (ctx : Ctx) (o : LoopOut) :
    llmTranscripts (epilogue ctx o).2.1 = [] := by
  cases o <;> rfl

theorem updateStatusRow_llm (row : DbRow) (s : String) (e : Option String) (a b : Nat) :
    llmTranscripts (updateStatusRow row s e a b).2 = [] := rfl

theorem run_llm_split (cfg : ExecCfg) (env : Env) (row0 : DbRow) :
    llmCount (run cfg env row0).effects = llmCount (runLoop cfg env row0).2.1 := by
  rw [run_effects_eq]
  simp only [llmCount_append]
  simp [llmCount, updateStatusRow_llm, resumeEvent_llm, restoreHuman_llm, epilogue_llm]

end Glassbox

namespace Glassbox

/-- C6: across one whole run the token totals written by successive
checkpoint saves are monotonically non-decreasing (componentwise); and on
resume the engine restores its counters from the stored row instead of
resetting them: the first status write carries the token totals stored on
the execution row, the context entering the while-loop carries the
checkpoint iteration and the row token totals (so the while condition
continues from the restored counter), and consequently the resumed run
makes at most maxIterations minus the stored iteration further gateway
calls — a reset-to-zero engine could make up to maxIterations. -/
theorem C6_tokens_monotone_and_restored (cfg : ExecCfg) (env : Env) (row0 : DbRow)
    (cp : Checkpoint) (hp : row0.present = true) (hcp : row0.checkpoint = some cp) :
    List.Chain' tokLE (cpSaves (run cfg env row0).effects) ∧
    (run cfg env row0).effects.take 2 =
      [Effect.statusUpdate "running" none row0.total_tokens_in row0.total_tokens_out,
       Effect.traceEvent "execution_resume"
         (Json.obj [("model", Json.str cfg.model), ("iteration", Json.num cp.iteration)])] ∧
    (startCtx cfg env row0).state.iteration = cp.iteration ∧
    (startCtx cfg env row0).total_tokens_in = row0.total_tokens_in ∧
    (startCtx cfg env row0).total_tokens_out = row0.total_tokens_out ∧
    llmCount (run cfg env row0).effects ≤ maxIterations - cp.iteration := by
  have hlc : loadCheckpoint row0 = (some cp, row0.total_tokens_in, row0.total_tokens_out) := by
    unfold loadCheckpoint
    rw [if_pos hp, hcp]
  have hit : (startState cfg env row0).iteration = cp.iteration := by
    unfold startState
    rw [hlc, restoreHuman_iteration]
    rfl
  refine ⟨(run_fx cfg env row0).1, ?_, hit, ?_, ?_, ?_⟩
  · simp only [run, hlc]
    simp [updateStatusRow, resumeEvent]
  · show (loadCheckpoint row0).2.1 = row0.total_tokens_in
    rw [hlc]
  · show (loadCheckpoint row0).2.2 = row0.total_tokens_out
    rw [hlc]
  · rw [run_llm_split, ← hit]
    exact (loop_iters (startCfg cfg env) env
      (maxIterations - (startState cfg env row0).iteration) (startCtx cfg env row0)).1

/-- C3 (amended): a fresh execution (no stored checkpoint) whose loop
reaches none of the four outcomes — completion, pause, cancellation,
awaiting-input — and never raises, i.e. whose while-loop falls through
its condition, runs exactly maxIterations = 20 iterations with one
gateway call each and then fails with the fixed message "Max iterations
reached": the final status is failed, the message is recorded on the
row, the iteration counter is exactly 20, there are exactly 20 gateway
calls, and no exception is re-raised — never earlier and never later. -/
theorem C3_max_iterations (cfg : ExecCfg) (env : Env) (row0 : DbRow)
    (hp : row0.present = true) (hcp : row0.checkpoint = none)
    (hout : (runLoop cfg env row0).2.2 = LoopOut.fellThrough) :
    (run cfg env row0).raised = none ∧
    (run cfg env row0).ctx.row.status = "failed" ∧
    (run cfg env row0).ctx.row.error_message = some "Max iterations reached" ∧
    (run cfg env row0).ctx.state.iteration = maxIterations ∧
    llmCount (run cfg env row0).effects = maxIterations := by
  have hlc : loadCheckpoint row0 = (none, 0, 0) := by
    unfold loadCheckpoint
    rw [if_pos hp, hcp]
  have hit0 : (startState cfg env row0).iteration = 0 := by
    unfold startState
    rw [hlc, restoreHuman_iteration]
    rfl
  have hsc : (startCtx cfg env row0).state.iteration =
      (startState cfg env row0).iteration := rfl
  obtain ⟨hIter, hCount, hPres⟩ := (loop_iters (startCfg cfg env) env
    (maxIterations - (startState cfg env row0).iteration) (startCtx cfg env row0)).2 hout
  have hIter2 : (runLoop cfg env row0).1.state.iteration =
      (startCtx cfg env row0).state.iteration +
        (maxIterations - (startState cfg env row0).iteration) := hIter
  have hCount2 : llmCount (runLoop cfg env row0).2.1 =
      maxIterations - (startState cfg env row0).iteration := hCount
  have hPres2 : (startCtx cfg env row0).row.present = true →
      (runLoop cfg env row0).1.row.present = true := hPres
  have hpresF : (runLoop cfg env row0).1.row.present = true := by
    apply hPres2
    show (updateStatusRow row0 "running" none (loadCheckpoint row0).2.1
      (loadCheckpoint row0).2.2).1.present = true
    rw [updateStatusRow_present]
    exact hp
  refine ⟨?_, ?_, ?_, ?_, ?_⟩
  · rw [run_raised_eq, hout]
    rfl
  · rw [run_ctx_eq, hout]
    exact updateStatusC_row_status _ _ _ hpresF
  · rw [run_ctx_eq, hout]
    exact updateStatusC_row_error _ _ _ hpresF
  · rw [run_ctx_eq, hout]
    show (updateStatusC (runLoop cfg env row0).1 "failed"
      (some "Max iterations reached")).1.state.iteration = maxIterations
    rw [updateStatusC_state, hIter2, hsc, hit0]
    omega
  · rw [run_llm_split, hCount2, hit0]
    rfl

end Glassbox

namespace Glassbox

/-- Assistant turn carrying one tool call whose argument string does not
parse as JSON: _execute_tool raises in json.loads before any dispatch
(executor.py line 456). -/
def respBadArgs : LLMResponse :=
  { content := none,
    tool_calls :=
      [⟨"t1", ⟨"add_output", Except.error "Expecting value: line 1 column 1 (char 0)"⟩⟩],
    usage := ⟨3, 5⟩ }

/-- Gateway that always answers with the malformed tool call. -/
def envBadArgs : Env := envOf fun _ => respBadArgs

/-- C3 counterexample to the unamended claim: a fresh execution whose
gateway always answers with a tool call carrying malformed JSON arguments
reaches none of completion, pause, cancellation or awaiting-input (none
of those trace events is emitted), yet terminates at its FIRST iteration
— one gateway call, iteration counter 1 — with status failed and the
json.loads error message re-raised: not at iteration 20 and not with the
"Max iterations reached" message the claim requires. -/
theorem C3_counterexample_early_failure :
    countKind "execution_complete" (run cfgT envBadArgs rowFresh).effects = 0 ∧
    countKind "execution_paused" (run cfgT envBadArgs rowFresh).effects = 0 ∧
    countKind "execution_cancelled" (run cfgT envBadArgs rowFresh).effects = 0 ∧
    countKind "awaiting_human_input" (run cfgT envBadArgs rowFresh).effects = 0 ∧
    (run cfgT envBadArgs rowFresh).ctx.state.iteration = 1 ∧
    llmCount (run cfgT envBadArgs rowFresh).effects = 1 ∧
    (run cfgT envBadArgs rowFresh).ctx.row.status = "failed" ∧
    (run cfgT envBadArgs rowFresh).ctx.row.error_message =
      some "Expecting value: line 1 column 1 (char 0)" ∧
    (run cfgT envBadArgs rowFresh).raised =
      some "Expecting value: line 1 column 1 (char 0)" ∧
    (run cfgT envBadArgs rowFresh).ctx.row.error_message ≠
      some "Max iterations reached" :=
  ⟨by decide, by decide, by decide, by decide, rfl, rfl, rfl, rfl, rfl, by decide⟩

end Glassbox

namespace Glassbox

/-- Concrete running context used by the loop-level witnesses. -/
def ctxW : Ctx :=
  { state := { node_id := "n1", execution_id := "e1", inputs := [] },
    row := { status := "running" },
    total_tokens_in := 0, total_tokens_out := 0, gensym := 0 }

/-- Environment that never completes and never interferes. -/
def envPlain : Env := envOf fun _ => respPlain

/-- Environment whose external actor pauses the execution row. -/
def envPauseW : Env :=
  { envPlain with interfere := fun _ r => { r with status := "paused" } }

/-- Environment whose external actor cancels the execution row. -/
def envCancelW : Env :=
  { envPlain with interfere := fun _ r => { r with status := "cancelled" } }

/-- Environment whose external actor deletes the execution row. -/
def envGoneW : Env :=
  { envPlain with interfere := fun _ r => { r with present := false } }

/-- Structured-data output arguments with unparseable content. -/
def argsBad : ArgsDict := { ty := some "structured_data", content := some "notjson" }

theorem C2_mark_complete_short_circuits_witness :
    processToolCalls cfgT envPlain
      (mkTC "t1" "mark_complete" { summary := some "s" } ::
        [mkTC "t2" "add_output" { ty := some "text", content := some "x" }]) ctxW =
      processToolCalls cfgT envPlain [mkTC "t1" "mark_complete" { summary := some "s" }] ctxW ∧
    statusWrites (processToolCalls cfgT envPlain
      (mkTC "t1" "mark_complete" { summary := some "s" } ::
        [mkTC "t2" "add_output" { ty := some "text", content := some "x" }]) ctxW).2.1 =
      [("complete", none)] :=
  ⟨(C2_mark_complete_short_circuits cfgT envPlain ctxW "t1" { summary := some "s" }
      [mkTC "t2" "add_output" { ty := some "text", content := some "x" }] rfl).1,
   (C2_mark_complete_short_circuits cfgT envPlain ctxW "t1" { summary := some "s" }
      [mkTC "t2" "add_output" { ty := some "text", content := some "x" }] rfl).2.2⟩

theorem C3_max_iterations_witness :
    (run cfgT envPlain rowFresh).ctx.row.status = "failed" ∧
    (run cfgT envPlain rowFresh).ctx.row.error_message = some "Max iterations reached" ∧
    (run cfgT envPlain rowFresh).ctx.state.iteration = maxIterations ∧
    llmCount (run cfgT envPlain rowFresh).effects = maxIterations := by
  have h := C3_max_iterations cfgT envPlain rowFresh rfl rfl rfl
  exact ⟨h.2.1, h.2.2.1, h.2.2.2.1, h.2.2.2.2⟩

theorem C4_pause_cancel_poll_witness :
    loop cfgT envPauseW 1 ctxW =
      ((saveCheckpoint (pollCtx envPauseW ctxW)).1,
       (saveCheckpoint (pollCtx envPauseW ctxW)).2 ++
         [Effect.traceEvent "execution_paused"
           (Json.obj [("iteration", Json.num (ctxW.state.iteration + 1))])],
       LoopOut.returned) ∧
    statusWrites (loop cfgT envPauseW 1 ctxW).2.1 = [] ∧
    loop cfgT envCancelW 1 ctxW =
      (pollCtx envCancelW ctxW, [Effect.traceEvent "execution_cancelled" (Json.obj [])],
       LoopOut.returned) :=
  ⟨((C4_pause_cancel_poll cfgT envPauseW 0 ctxW).1 rfl rfl).1,
   ((C4_pause_cancel_poll cfgT envPauseW 0 ctxW).1 rfl rfl).2.2.1,
   (C4_pause_cancel_poll cfgT envCancelW 0 ctxW).2 rfl rfl⟩

theorem C9_missing_row_cancels_witness :
    loop cfgT envGoneW 1 ctxW =
      (pollCtx envGoneW ctxW, [Effect.traceEvent "execution_cancelled" (Json.obj [])],
       LoopOut.returned) :=
  C9_missing_row_cancels cfgT envGoneW 0 ctxW rfl

theorem C6_tokens_monotone_and_restored_witness :
    List.Chain' tokLE (cpSaves (run cfgT envC1 rowC1).effects) ∧
    (run cfgT envC1 rowC1).effects.take 2 =
      [Effect.statusUpdate "running" none 7 9,
       Effect.traceEvent "execution_resume"
         (Json.obj [("model", Json.str "m"), ("iteration", Json.num 3)])] ∧
    (startCtx cfgT envC1 rowC1).state.iteration = 3 ∧
    (startCtx cfgT envC1 rowC1).total_tokens_in = 7 ∧
    (startCtx cfgT envC1 rowC1).total_tokens_out = 9 ∧
    llmCount (run cfgT envC1 rowC1).effects ≤ maxIterations - 3 :=
  C6_tokens_monotone_and_restored cfgT envC1 rowC1 cpC1 rfl rfl

theorem C7_invalid_structured_data_witness :
    addOutput cfgT envPlain argsBad ctxW =
      ({ ctxW with gensym := ctxW.gensym + 2 }, [], .error "bad json") ∧
    executeTool cfgT envPlain (mkTC "t1" "add_output" argsBad) ctxW =
      ({ ctxW with gensym := ctxW.gensym + 2 },
       [Effect.traceEvent "tool_call" (Json.obj [("tool", Json.str "add_output"),
          ("arguments", Json.obj (argsFields argsBad))])],
       .error "bad json") :=
  C7_invalid_structured_data cfgT envPlain argsBad ctxW "notjson" "bad json" "t1" rfl rfl rfl

theorem C10_restore_event_response_null_witness :
    (run cfgT envC1 rowC1).effects.take 3 =
      [Effect.statusUpdate "running" none 7 9,
       Effect.traceEvent "execution_resume"
         (Json.obj [("model", Json.str "m"), ("iteration", Json.num 3)]),
       Effect.traceEvent "human_input_received"
         (Json.obj [("response", Json.null)])] :=
  C10_restore_event_response_null cfgT envC1 rowC1 cpC1 rfl rfl rfl

end Glassbox

namespace Glassbox

theorem C8_trace_kinds_closed_witness :
    "awaiting_human_input" ∈ emittedTraceKinds :=
  C8_trace_kinds_closed cfgT envC8 rowFresh "awaiting_human_input"
    (by
      have h : traceKinds (run cfgT envC8 rowFresh).effects =
          ["execution_start", "llm_call", "tool_call", "human_input_requested",
           "awaiting_human_input"] := rfl
      rw [h]
      decide)

end Glassbox
